import Mathlib

/-!
Verification of the friday-screener fundamental scoring engine.

Shallow embedding of `src/config/settings.py`, `src/models/stock_data.py`,
`src/models/screening_result.py`, `src/utils/helpers.py` and
`src/analyzers/fundamental_analyzer.py` (plus the data-quality computation of
`src/services/yahoo_finance_service.py`). Python floats are modelled as `ℚ`;
optional fields as `Option ℚ`; `dict[int, float]` as an association list;
a raised exception as `Except.error`. CPython's stable `list.sort` and
`sorted` are modelled by a stable insertion sort. Python's `round(x, 2)`
(round-half-to-even) is modelled exactly on `ℚ`.

The Indonesian narrative strings appended by the analyzer (strengths,
weaknesses, red flags and insight descriptions) carry interpolated numbers;
they are represented here by the inductive `Msg`, one constructor per
distinct message template of the source, carrying the interpolated value.
The claims under verification concern which messages are recorded, never
their rendered text.
-/

/-! ## src/config/settings.py -/

/-- Kriteria valuasi untuk screening emiten (`ValuationCriteria`). -/
structure ValuationCriteria where
  pe_ratio_preferred : ℚ := 5
  pe_ratio_max : ℚ := 15
  pbv_preferred : ℚ := 1
  pbv_max : ℚ := 2
  market_cap_preferred : ℚ := 100000000000000
  market_cap_min : ℚ := 1000000000000
deriving DecidableEq

/-- Kriteria profitabilitas dan pertumbuhan (`ProfitabilityCriteria`). -/
structure ProfitabilityCriteria where
  eps_growth_years : ℕ := 5
  eps_growth_min_positive : Bool := true
  gpm_min : ℚ := 20
  gpm_preferred : ℚ := 30
  roe_min : ℚ := 10
  roe_preferred : ℚ := 15
  ocf_positive : Bool := true
  fcf_positive : Bool := true
deriving DecidableEq

/-- Kriteria risiko dan leverage (`RiskCriteria`). -/
structure RiskCriteria where
  debt_to_equity_max : ℚ := 1
  debt_to_equity_preferred : ℚ := 0.5
  beta_max : Option ℚ := some 1.5
deriving DecidableEq

/-- Kriteria dividen (`DividendCriteria`). -/
structure DividendCriteria where
  dividend_yield_min : ℚ := 2
  dividend_yield_preferred : ℚ := 4
  require_dividend : Bool := true
deriving DecidableEq

/-- Gabungan semua kriteria screening (`ScreeningCriteria`). -/
structure ScreeningCriteria where
  valuation : ValuationCriteria := {}
  profitability : ProfitabilityCriteria := {}
  risk : RiskCriteria := {}
  dividend : DividendCriteria := {}
deriving DecidableEq

/-- Default screening criteria instance (`DEFAULT_CRITERIA`). -/
def DEFAULT_CRITERIA : ScreeningCriteria := {}

/-- Bobot untuk scoring setiap kriteria (`ScoringWeights`), the four fields
of the dataclass. -/
structure ScoringWeights where
  valuation_weight : ℚ := 0.25
  profitability_weight : ℚ := 0.35
  risk_weight : ℚ := 0.20
  dividend_weight : ℚ := 0.20
deriving DecidableEq

/-- The sum computed inside `ScoringWeights.__post_init__`. -/
def ScoringWeights.total (w : ScoringWeights) : ℚ :=
  w.valuation_weight + w.profitability_weight + w.risk_weight + w.dividend_weight

/-- `ScoringWeights.__post_init__`: validate that weights sum to 1.0, raising
`ValueError` otherwise. -/
def ScoringWeights.post_init (w : ScoringWeights) : Except String ScoringWeights :=
  if ¬ (0.99 ≤ w.total ∧ w.total ≤ 1.01) then
    Except.error "Weights must sum to 1.0"
  else
    Except.ok w

/-- Constructing a `ScoringWeights` dataclass value: field assignment followed
by `__post_init__` validation. -/
def ScoringWeights.construct (v p r d : ℚ) : Except String ScoringWeights :=
  ScoringWeights.post_init ⟨v, p, r, d⟩

/-- Default weights instance (`DEFAULT_WEIGHTS`). -/
def DEFAULT_WEIGHTS : ScoringWeights := {}

/-! ## src/utils/helpers.py -/

/-- The loop inside `is_growing_trend`: the number of indices `i ≥ 1` with
`values[i] > values[i - 1]`. -/
def count_positive_changes : List ℚ → ℕ
  | a :: b :: rest => (if a < b then 1 else 0) + count_positive_changes (b :: rest)
  | _ => 0

/-- `is_growing_trend(values, min_positive_years=3)` from helpers.py. -/
def is_growing_trend (values : List ℚ) (min_positive_years : ℕ := 3) : Bool :=
  if values.length < 2 then false
  else decide (min_positive_years ≤ count_positive_changes values)

/-! ## Python runtime primitives used by the analyzer -/

/-- Python's `round` to an integer: round half to even (banker's rounding). -/
def round_half_even (q : ℚ) : ℤ :=
  if q - ⌊q⌋ < 1 / 2 then ⌊q⌋
  else if 1 / 2 < q - ⌊q⌋ then ⌊q⌋ + 1
  else if ⌊q⌋ % 2 = 0 then ⌊q⌋ else ⌊q⌋ + 1

/-- Python's `round(q, 2)`: round to two decimal places, half to even. -/
def py_round2 (q : ℚ) : ℚ :=
  (round_half_even (q * 100) : ℚ) / 100

/-- One step of the stable sort: insert `x` into `l`, keeping every `y` with
`before y x = true` in front of `x`. With a strict comparison this keeps
earlier-input elements first among equals, exactly as CPython's stable
`list.sort` / `sorted`. -/
def stable_insert (before : α → α → Bool) (x : α) : List α → List α
  | [] => [x]
  | y :: ys => if before y x then y :: stable_insert before x ys else x :: y :: ys

/-- Stable sort modelling CPython's `list.sort` / `sorted`: `before y x`
states that `y` must come strictly before `x` in the output. -/
def stable_sort (before : α → α → Bool) (l : List α) : List α :=
  l.foldr (stable_insert before) []

/-! ## src/models/stock_data.py -/

/-- Informasi dasar perusahaan (`CompanyInfo`). -/
structure CompanyInfo where
  ticker : String
  name : String
  sector : Option String := none
  industry : Option String := none
  description : Option String := none
  website : Option String := none
  country : Option String := none
deriving DecidableEq

/-- Metrik valuasi perusahaan (`ValuationMetrics`). -/
structure ValuationMetrics where
  market_cap : Option ℚ := none
  enterprise_value : Option ℚ := none
  pe_ratio : Option ℚ := none
  forward_pe : Option ℚ := none
  peg_ratio : Option ℚ := none
  price_to_book : Option ℚ := none
  price_to_sales : Option ℚ := none
  shares_outstanding : Option ℚ := none
deriving DecidableEq

/-- Metrik profitabilitas dan pertumbuhan (`ProfitabilityMetrics`); the
`eps_history` dict `{year: eps}` is an association list with distinct keys. -/
structure ProfitabilityMetrics where
  revenue : Option ℚ := none
  gross_profit : Option ℚ := none
  operating_income : Option ℚ := none
  net_income : Option ℚ := none
  eps : Option ℚ := none
  gross_margin : Option ℚ := none
  operating_margin : Option ℚ := none
  profit_margin : Option ℚ := none
  roe : Option ℚ := none
  roa : Option ℚ := none
  roic : Option ℚ := none
  eps_history : List (ℤ × ℚ) := []
deriving DecidableEq

/-- Metrik cash flow (`CashFlowMetrics`). -/
structure CashFlowMetrics where
  operating_cash_flow : Option ℚ := none
  free_cash_flow : Option ℚ := none
  capital_expenditure : Option ℚ := none
  levered_free_cash_flow : Option ℚ := none
deriving DecidableEq

/-- Metrik leverage dan risiko (`LeverageMetrics`). -/
structure LeverageMetrics where
  total_debt : Option ℚ := none
  total_equity : Option ℚ := none
  debt_to_equity : Option ℚ := none
  current_ratio : Option ℚ := none
  quick_ratio : Option ℚ := none
  interest_coverage : Option ℚ := none
  beta : Option ℚ := none
deriving DecidableEq

/-- Metrik dividen (`DividendMetrics`); `dividend_history` is omitted (a list
of raw provider dicts, never read by the scoring engine). -/
structure DividendMetrics where
  dividend_rate : Option ℚ := none
  dividend_yield : Option ℚ := none
  payout_ratio : Option ℚ := none
  five_year_avg_dividend_yield : Option ℚ := none
deriving DecidableEq

/-- Metrik harga saham (`PriceMetrics`). -/
structure PriceMetrics where
  current_price : Option ℚ := none
  previous_close : Option ℚ := none
  open_price : Option ℚ := none
  day_high : Option ℚ := none
  day_low : Option ℚ := none
  fifty_two_week_high : Option ℚ := none
  fifty_two_week_low : Option ℚ := none
  volume : Option ℤ := none
  avg_volume : Option ℤ := none
deriving DecidableEq

/-- Complete stock data model (`StockData`). The `news`,
`corporate_actions` and `last_updated` metadata fields (never read by the
scoring engine) are omitted. -/
structure StockData where
  company_info : CompanyInfo
  valuation : ValuationMetrics := {}
  profitability : ProfitabilityMetrics := {}
  cash_flow : CashFlowMetrics := {}
  leverage : LeverageMetrics := {}
  dividend : DividendMetrics := {}
  price : PriceMetrics := {}
  data_quality_score : Option ℚ := none
deriving DecidableEq

/-- `StockData.get_ticker`. -/
def StockData.get_ticker (sd : StockData) : String :=
  sd.company_info.ticker

/-- `StockData.has_complete_data`: all five required screening metrics are
present. -/
def StockData.has_complete_data (sd : StockData) : Bool :=
  sd.valuation.pe_ratio.isSome && sd.valuation.price_to_book.isSome &&
    sd.profitability.roe.isSome && sd.profitability.gross_margin.isSome &&
    sd.leverage.debt_to_equity.isSome

/-! ## src/models/screening_result.py -/

/-- Rating kategori untuk hasil screening (`Rating`). -/
inductive Rating where
  | VERY_STRONG
  | STRONG
  | FAIR
  | WEAK
  | VERY_WEAK
  | INSUFFICIENT_DATA
deriving DecidableEq

/-- One message template of the analyzer, with its interpolated number where
the source's f-string has one. Constructors are in source order:
`fundamental_analyzer.py` top to bottom. -/
inductive Msg where
  | data_tidak_lengkap
  | pe_sangat_baik (pe : ℚ)
  | pe_acceptable_descr (pe : ℚ)
  | pe_tinggi (pe : ℚ)
  | pe_tidak_tersedia
  | pbv_sangat_baik (pbv : ℚ)
  | pbv_acceptable_descr (pbv : ℚ)
  | pbv_tinggi (pbv : ℚ)
  | pbv_tidak_tersedia
  | market_cap_besar
  | market_cap_moderate_descr
  | market_cap_kecil
  | market_cap_tidak_tersedia
  | eps_tumbuh_konsisten (years : ℕ)
  | eps_recovery_descr
  | eps_tidak_tumbuh
  | eps_data_tidak_cukup
  | gpm_excellent (pct : ℚ)
  | gpm_acceptable_descr (pct : ℚ)
  | gpm_rendah (pct : ℚ)
  | gpm_tidak_tersedia
  | roe_excellent (pct : ℚ)
  | roe_acceptable_descr (pct : ℚ)
  | roe_rendah (pct : ℚ)
  | roe_tidak_tersedia
  | ocf_positif
  | ocf_negatif
  | ocf_tidak_tersedia
  | fcf_positif
  | fcf_negatif
  | fcf_tidak_tersedia
  | dte_sangat_rendah (dte : ℚ)
  | dte_acceptable_descr (dte : ℚ)
  | dte_tinggi (dte : ℚ)
  | dte_tidak_tersedia
  | beta_rendah (beta : ℚ)
  | beta_moderate_descr (beta : ℚ)
  | beta_tinggi (beta : ℚ)
  | beta_tidak_tersedia_descr
  | div_yield_sangat_baik (pct : ℚ)
  | div_yield_acceptable_descr (pct : ℚ)
  | div_yield_rendah (pct : ℚ)
  | tidak_membayar_dividen
deriving DecidableEq

/-- A value stored in a `CategoryScore.details` dict. -/
inductive DVal where
  | num (q : ℚ)
  | flag (b : Bool)
  | str (s : String)
  | hist (h : List (ℤ × ℚ))
deriving DecidableEq

/-- Score untuk satu kategori screening (`CategoryScore`). -/
structure CategoryScore where
  category : String
  score : ℚ
  max_score : ℚ := 100
  weight : ℚ := 0
  passed : Bool := false
  details : List (String × DVal) := []
deriving DecidableEq

/-- Metrik-metrik hasil screening (`ScreeningMetrics`). -/
structure ScreeningMetrics where
  total_score : ℚ := 0
  max_possible_score : ℚ := 100
  valuation_score : CategoryScore := { category := "Valuation", score := 0 }
  profitability_score : CategoryScore := { category := "Profitability", score := 0 }
  risk_score : CategoryScore := { category := "Risk", score := 0 }
  dividend_score : CategoryScore := { category := "Dividend", score := 0 }
deriving DecidableEq

/-- Single insight atau finding dari analisis (`Insight`). -/
structure Insight where
  category : String
  severity : String
  title : String
  description : Msg
  impact : Option String := none
deriving DecidableEq

/-- Complete result dari stock screening (`ScreeningResult`); the
`screened_at` timestamp (wall-clock metadata) is omitted. -/
structure ScreeningResult where
  ticker : String
  company_name : String
  sector : Option String := none
  industry : Option String := none
  rating : Rating := Rating.INSUFFICIENT_DATA
  metrics : ScreeningMetrics := {}
  insights : List Insight := []
  red_flags : List Msg := []
  strengths : List Msg := []
  weaknesses : List Msg := []
  key_metrics : List (String × Option ℚ) := []
  data_completeness : ℚ := 0
deriving DecidableEq

/-- `ScreeningResult.add_insight`. -/
def ScreeningResult.add_insight (r : ScreeningResult) (category severity title : String)
    (description : Msg) (impact : Option String := none) : ScreeningResult :=
  { r with insights := r.insights ++
      [{ category := category, severity := severity, title := title,
         description := description, impact := impact }] }

/-- `ScreeningResult.add_red_flag`. -/
def ScreeningResult.add_red_flag (r : ScreeningResult) (message : Msg) : ScreeningResult :=
  { r with red_flags := r.red_flags ++ [message] }

/-- `ScreeningResult.add_strength`. -/
def ScreeningResult.add_strength (r : ScreeningResult) (message : Msg) : ScreeningResult :=
  { r with strengths := r.strengths ++ [message] }

/-- `ScreeningResult.add_weakness`. -/
def ScreeningResult.add_weakness (r : ScreeningResult) (message : Msg) : ScreeningResult :=
  { r with weaknesses := r.weaknesses ++ [message] }

/-- The score-to-rating breakpoints of
`ScreeningResult.calculate_rating_from_score`, as a pure function of the
score. -/
def rating_from_score (score : ℚ) : Rating :=
  if 80 ≤ score then Rating.VERY_STRONG
  else if 60 ≤ score then Rating.STRONG
  else if 40 ≤ score then Rating.FAIR
  else if 20 ≤ score then Rating.WEAK
  else Rating.VERY_WEAK

/-- `ScreeningResult.calculate_rating_from_score`: rating based on
`self.metrics.total_score`. -/
def ScreeningResult.calculate_rating_from_score (r : ScreeningResult) : Rating :=
  rating_from_score r.metrics.total_score

/-- `ScreeningResult.is_strong_fundamentals`. -/
def ScreeningResult.is_strong_fundamentals (r : ScreeningResult) : Bool :=
  r.rating = Rating.STRONG ∨ r.rating = Rating.VERY_STRONG

/-! ## src/analyzers/fundamental_analyzer.py

Each commented block of a category scorer is a `*_block` definition
returning `(points added to score.score, details entries added, result
after the block's add_strength / add_insight / add_weakness / add_red_flag
calls)`; the scorer chains its blocks in source order and assembles the
`CategoryScore` exactly as the Python method leaves it. -/

/-- Analyzer untuk fundamental screening (`FundamentalAnalyzer`): criteria
and weights fixed at construction. -/
structure FundamentalAnalyzer where
  criteria : ScreeningCriteria := DEFAULT_CRITERIA
  weights : ScoringWeights := DEFAULT_WEIGHTS
deriving DecidableEq

/-- PE Ratio scoring (40 points) of `_analyze_valuation`. -/
def valuation_pe_block (crit : ValuationCriteria) (pe? : Option ℚ)
    (result : ScreeningResult) : ℚ × List (String × DVal) × ScreeningResult :=
  match pe? with
  | some pe =>
    if 0 < pe then
      if pe ≤ crit.pe_ratio_preferred then
        (40, [("pe_ratio", DVal.num pe)], result.add_strength (Msg.pe_sangat_baik pe))
      else if pe ≤ crit.pe_ratio_max then
        (25, [("pe_ratio", DVal.num pe)],
          result.add_insight "Valuation" "positive" "PE Ratio acceptable"
            (Msg.pe_acceptable_descr pe) (some "Medium"))
      else
        (10, [("pe_ratio", DVal.num pe)], result.add_weakness (Msg.pe_tinggi pe))
    else (0, [], result.add_weakness Msg.pe_tidak_tersedia)
  | none => (0, [], result.add_weakness Msg.pe_tidak_tersedia)

/-- PBV scoring (40 points) of `_analyze_valuation`. -/
def valuation_pbv_block (crit : ValuationCriteria) (pbv? : Option ℚ)
    (result : ScreeningResult) : ℚ × List (String × DVal) × ScreeningResult :=
  match pbv? with
  | some pbv =>
    if 0 < pbv then
      if pbv ≤ crit.pbv_preferred then
        (40, [("pbv", DVal.num pbv)], result.add_strength (Msg.pbv_sangat_baik pbv))
      else if pbv ≤ crit.pbv_max then
        (25, [("pbv", DVal.num pbv)],
          result.add_insight "Valuation" "positive" "PBV acceptable"
            (Msg.pbv_acceptable_descr pbv) (some "Medium"))
      else
        (10, [("pbv", DVal.num pbv)], result.add_weakness (Msg.pbv_tinggi pbv))
    else (0, [], result.add_weakness Msg.pbv_tidak_tersedia)
  | none => (0, [], result.add_weakness Msg.pbv_tidak_tersedia)

/-- Market Cap scoring (20 points) of `_analyze_valuation`. -/
def valuation_mcap_block (crit : ValuationCriteria) (market_cap? : Option ℚ)
    (result : ScreeningResult) : ℚ × List (String × DVal) × ScreeningResult :=
  match market_cap? with
  | some market_cap =>
    if crit.market_cap_preferred ≤ market_cap then
      (20, [("market_cap", DVal.num market_cap)],
        result.add_strength Msg.market_cap_besar)
    else if crit.market_cap_min ≤ market_cap then
      (15, [("market_cap", DVal.num market_cap)],
        result.add_insight "Valuation" "neutral" "Market cap moderate"
          Msg.market_cap_moderate_descr (some "Low"))
    else
      (5, [("market_cap", DVal.num market_cap)],
        result.add_red_flag Msg.market_cap_kecil)
  | none => (0, [], result.add_weakness Msg.market_cap_tidak_tersedia)

/-- `FundamentalAnalyzer._analyze_valuation`. -/
def FundamentalAnalyzer.analyze_valuation (a : FundamentalAnalyzer)
    (stock_data : StockData) (result : ScreeningResult) :
    CategoryScore × ScreeningResult :=
  let b1 := valuation_pe_block a.criteria.valuation stock_data.valuation.pe_ratio result
  let b2 := valuation_pbv_block a.criteria.valuation stock_data.valuation.price_to_book b1.2.2
  let b3 := valuation_mcap_block a.criteria.valuation stock_data.valuation.market_cap b2.2.2
  let s := b1.1 + b2.1 + b3.1
  ({ category := "Valuation", score := s, weight := a.weights.valuation_weight,
     passed := decide (50 ≤ s), details := b1.2.1 ++ b2.2.1 ++ b3.2.1 }, b3.2.2)

/-- `sorted(eps_history.keys())` then value extraction in that order: the
EPS values of the history, sorted by year ascending. -/
def eps_values_sorted (eps_history : List (ℤ × ℚ)) : List ℚ :=
  (stable_sort (fun y x => decide (y.1 < x.1)) eps_history).map Prod.snd

/-- The condition `eps_values[-1] > eps_values[-2]` (last value strictly
above the second-to-last). -/
def last_over_prev (values : List ℚ) : Bool :=
  match values.reverse with
  | a :: b :: _ => decide (b < a)
  | _ => false

/-- EPS growth analysis (30 points) of `_analyze_profitability`. -/
def profitability_eps_block (eps_history : List (ℤ × ℚ))
    (result : ScreeningResult) : ℚ × List (String × DVal) × ScreeningResult :=
  if 2 ≤ eps_history.length then
    let eps_values := eps_values_sorted eps_history
    let p : ℚ × ScreeningResult :=
      if is_growing_trend eps_values 3 then
        (30, result.add_strength (Msg.eps_tumbuh_konsisten eps_values.length))
      else if decide (2 ≤ eps_values.length) && last_over_prev eps_values then
        (15, result.add_insight "Profitability" "neutral" "EPS recovery"
          Msg.eps_recovery_descr (some "Medium"))
      else
        (5, result.add_red_flag Msg.eps_tidak_tumbuh)
    (p.1,
      [("eps_trend", DVal.str (if is_growing_trend eps_values then "growing" else "declining")),
       ("eps_history", DVal.hist eps_history)],
      p.2)
  else (0, [], result.add_weakness Msg.eps_data_tidak_cukup)

/-- Gross Margin analysis (25 points) of `_analyze_profitability`. -/
def profitability_gpm_block (crit : ProfitabilityCriteria) (gpm? : Option ℚ)
    (result : ScreeningResult) : ℚ × List (String × DVal) × ScreeningResult :=
  match gpm? with
  | some gpm =>
    let gpm_pct := if gpm ≤ 1 then gpm * 100 else gpm
    if crit.gpm_preferred ≤ gpm_pct then
      (25, [("gross_margin", DVal.num gpm_pct)],
        result.add_strength (Msg.gpm_excellent gpm_pct))
    else if crit.gpm_min ≤ gpm_pct then
      (15, [("gross_margin", DVal.num gpm_pct)],
        result.add_insight "Profitability" "positive" "Gross margin acceptable"
          (Msg.gpm_acceptable_descr gpm_pct) (some "Medium"))
    else
      (5, [("gross_margin", DVal.num gpm_pct)],
        result.add_weakness (Msg.gpm_rendah gpm_pct))
  | none => (0, [], result.add_weakness Msg.gpm_tidak_tersedia)

/-- ROE analysis (25 points) of `_analyze_profitability`. -/
def profitability_roe_block (crit : ProfitabilityCriteria) (roe? : Option ℚ)
    (result : ScreeningResult) : ℚ × List (String × DVal) × ScreeningResult :=
  match roe? with
  | some roe =>
    let roe_pct := if roe ≤ 1 then roe * 100 else roe
    if crit.roe_preferred ≤ roe_pct then
      (25, [("roe", DVal.num roe_pct)],
        result.add_strength (Msg.roe_excellent roe_pct))
    else if crit.roe_min ≤ roe_pct then
      (15, [("roe", DVal.num roe_pct)],
        result.add_insight "Profitability" "positive" "ROE acceptable"
          (Msg.roe_acceptable_descr roe_pct) (some "Medium"))
    else
      (5, [("roe", DVal.num roe_pct)],
        result.add_weakness (Msg.roe_rendah roe_pct))
  | none => (0, [], result.add_weakness Msg.roe_tidak_tersedia)

/-- Operating-cash-flow half of the Cash Flow analysis (10 of 20 points). -/
def profitability_ocf_block (ocf? : Option ℚ)
    (result : ScreeningResult) : ℚ × List (String × DVal) × ScreeningResult :=
  match ocf? with
  | some ocf =>
    if 0 < ocf then
      (10, [("ocf_positive", DVal.flag true)], result.add_strength Msg.ocf_positif)
    else
      (0, [("ocf_positive", DVal.flag false)], result.add_red_flag Msg.ocf_negatif)
  | none => (0, [], result.add_weakness Msg.ocf_tidak_tersedia)

/-- Free-cash-flow half of the Cash Flow analysis (10 of 20 points). -/
def profitability_fcf_block (fcf? : Option ℚ)
    (result : ScreeningResult) : ℚ × List (String × DVal) × ScreeningResult :=
  match fcf? with
  | some fcf =>
    if 0 < fcf then
      (10, [("fcf_positive", DVal.flag true)], result.add_strength Msg.fcf_positif)
    else
      (0, [("fcf_positive", DVal.flag false)], result.add_weakness Msg.fcf_negatif)
  | none => (0, [], result.add_weakness Msg.fcf_tidak_tersedia)

/-- `FundamentalAnalyzer._analyze_profitability`. -/
def FundamentalAnalyzer.analyze_profitability (a : FundamentalAnalyzer)
    (stock_data : StockData) (result : ScreeningResult) :
    CategoryScore × ScreeningResult :=
  let b1 := profitability_eps_block stock_data.profitability.eps_history result
  let b2 := profitability_gpm_block a.criteria.profitability stock_data.profitability.gross_margin b1.2.2
  let b3 := profitability_roe_block a.criteria.profitability stock_data.profitability.roe b2.2.2
  let b4 := profitability_ocf_block stock_data.cash_flow.operating_cash_flow b3.2.2
  let b5 := profitability_fcf_block stock_data.cash_flow.free_cash_flow b4.2.2
  let s := b1.1 + b2.1 + b3.1 + b4.1 + b5.1
  ({ category := "Profitability", score := s, weight := a.weights.profitability_weight,
     passed := decide (50 ≤ s),
     details := b1.2.1 ++ b2.2.1 ++ b3.2.1 ++ b4.2.1 ++ b5.2.1 }, b5.2.2)

/-- Debt-to-Equity analysis (70 points) of `_analyze_risk`. -/
def risk_dte_block (crit : RiskCriteria) (dte? : Option ℚ)
    (result : ScreeningResult) : ℚ × List (String × DVal) × ScreeningResult :=
  match dte? with
  | some dte =>
    if dte ≤ crit.debt_to_equity_preferred then
      (70, [("debt_to_equity", DVal.num dte)],
        result.add_strength (Msg.dte_sangat_rendah dte))
    else if dte ≤ crit.debt_to_equity_max then
      (45, [("debt_to_equity", DVal.num dte)],
        result.add_insight "Risk" "neutral" "Debt level acceptable"
          (Msg.dte_acceptable_descr dte) (some "Medium"))
    else
      (15, [("debt_to_equity", DVal.num dte)],
        result.add_red_flag (Msg.dte_tinggi dte))
  | none => (0, [], result.add_weakness Msg.dte_tidak_tersedia)

/-- Beta analysis (30 points) of `_analyze_risk`; an absent beta gets a
moderate score with a neutral insight instead of zero points. -/
def risk_beta_block (crit : RiskCriteria) (beta? : Option ℚ)
    (result : ScreeningResult) : ℚ × List (String × DVal) × ScreeningResult :=
  match beta? with
  | some beta =>
    if beta ≤ 1 then
      (30, [("beta", DVal.num beta)], result.add_strength (Msg.beta_rendah beta))
    else if (match crit.beta_max with
             | some m => decide (beta ≤ m)
             | none => false) then
      (20, [("beta", DVal.num beta)],
        result.add_insight "Risk" "neutral" "Beta moderate"
          (Msg.beta_moderate_descr beta) (some "Low"))
    else
      (5, [("beta", DVal.num beta)], result.add_weakness (Msg.beta_tinggi beta))
  | none =>
    (15, [],
      result.add_insight "Risk" "neutral" "Beta data unavailable"
        Msg.beta_tidak_tersedia_descr (some "Low"))

/-- `FundamentalAnalyzer._analyze_risk`. -/
def FundamentalAnalyzer.analyze_risk (a : FundamentalAnalyzer)
    (stock_data : StockData) (result : ScreeningResult) :
    CategoryScore × ScreeningResult :=
  let b1 := risk_dte_block a.criteria.risk stock_data.leverage.debt_to_equity result
  let b2 := risk_beta_block a.criteria.risk stock_data.leverage.beta b1.2.2
  let s := b1.1 + b2.1
  ({ category := "Risk", score := s, weight := a.weights.risk_weight,
     passed := decide (50 ≤ s), details := b1.2.1 ++ b2.2.1 }, b2.2.2)

/-- The whole body of `_analyze_dividend` apart from the `CategoryScore`
assembly: dividend yield tiering, with the no-dividend fallback branch. -/
def dividend_block (crit : DividendCriteria) (div_yield? : Option ℚ)
    (result : ScreeningResult) : ℚ × List (String × DVal) × ScreeningResult :=
  let no_dividend : ScreeningResult → ℚ × List (String × DVal) × ScreeningResult :=
    fun result =>
      if crit.require_dividend then
        (0, [("has_dividend", DVal.flag false)],
          result.add_red_flag Msg.tidak_membayar_dividen)
      else
        (20, [("has_dividend", DVal.flag false)],
          result.add_weakness Msg.tidak_membayar_dividen)
  match div_yield? with
  | some div_yield =>
    if 0 < div_yield then
      let div_yield_pct := if div_yield ≤ 1 then div_yield * 100 else div_yield
      if crit.dividend_yield_preferred ≤ div_yield_pct then
        (100, [("dividend_yield", DVal.num div_yield_pct), ("has_dividend", DVal.flag true)],
          result.add_strength (Msg.div_yield_sangat_baik div_yield_pct))
      else if crit.dividend_yield_min ≤ div_yield_pct then
        (60, [("dividend_yield", DVal.num div_yield_pct), ("has_dividend", DVal.flag true)],
          result.add_insight "Dividend" "positive" "Dividend yield acceptable"
            (Msg.div_yield_acceptable_descr div_yield_pct) (some "Medium"))
      else
        (30, [("dividend_yield", DVal.num div_yield_pct), ("has_dividend", DVal.flag true)],
          result.add_weakness (Msg.div_yield_rendah div_yield_pct))
    else no_dividend result
  | none => no_dividend result

/-- `FundamentalAnalyzer._analyze_dividend`; the pass bar is 40, more
lenient than the other categories. -/
def FundamentalAnalyzer.analyze_dividend (a : FundamentalAnalyzer)
    (stock_data : StockData) (result : ScreeningResult) :
    CategoryScore × ScreeningResult :=
  let b := dividend_block a.criteria.dividend stock_data.dividend.dividend_yield result
  ({ category := "Dividend", score := b.1, weight := a.weights.dividend_weight,
     passed := decide (40 ≤ b.1), details := b.2.1 }, b.2.2)

/-- `FundamentalAnalyzer._calculate_total_score`: weighted total, rounded to
two decimal places. -/
def FundamentalAnalyzer.calculate_total_score (a : FundamentalAnalyzer)
    (metrics : ScreeningMetrics) : ℚ :=
  py_round2
    (metrics.valuation_score.score * a.weights.valuation_weight
      + metrics.profitability_score.score * a.weights.profitability_weight
      + metrics.risk_score.score * a.weights.risk_weight
      + metrics.dividend_score.score * a.weights.dividend_weight)

/-- `FundamentalAnalyzer._build_key_metrics_summary`. -/
def FundamentalAnalyzer.build_key_metrics_summary (stock_data : StockData) :
    List (String × Option ℚ) :=
  [("pe_ratio", stock_data.valuation.pe_ratio),
   ("pbv", stock_data.valuation.price_to_book),
   ("market_cap", stock_data.valuation.market_cap),
   ("roe", stock_data.profitability.roe),
   ("gross_margin", stock_data.profitability.gross_margin),
   ("debt_to_equity", stock_data.leverage.debt_to_equity),
   ("dividend_yield", stock_data.dividend.dividend_yield),
   ("current_price", stock_data.price.current_price),
   ("eps", stock_data.profitability.eps)]

/-- `FundamentalAnalyzer.analyze`: complete fundamental analysis of one
stock. -/
def FundamentalAnalyzer.analyze (a : FundamentalAnalyzer)
    (stock_data : StockData) : ScreeningResult :=
  let result : ScreeningResult :=
    { ticker := stock_data.get_ticker,
      company_name := stock_data.company_info.name,
      sector := stock_data.company_info.sector,
      industry := stock_data.company_info.industry,
      data_completeness := stock_data.data_quality_score.getD 0 }
  let result :=
    if ¬ stock_data.has_complete_data then
      result.add_red_flag Msg.data_tidak_lengkap
    else result
  let v := a.analyze_valuation stock_data result
  let p := a.analyze_profitability stock_data v.2
  let r := a.analyze_risk stock_data p.2
  let d := a.analyze_dividend stock_data r.2
  let metrics : ScreeningMetrics :=
    { valuation_score := v.1, profitability_score := p.1,
      risk_score := r.1, dividend_score := d.1 }
  let metrics := { metrics with total_score := a.calculate_total_score metrics }
  let result := { d.2 with metrics := metrics }
  let result := { result with rating := result.calculate_rating_from_score }
  { result with key_metrics := FundamentalAnalyzer.build_key_metrics_summary stock_data }

/-- `FundamentalAnalyzer.batch_analyze`: analyze each stock in order, then
`results.sort(key=lambda x: x.metrics.total_score, reverse=True)` — a stable
descending sort by total score. -/
def FundamentalAnalyzer.batch_analyze (a : FundamentalAnalyzer)
    (stocks_data : List StockData) : List ScreeningResult :=
  stable_sort (fun y x => decide (x.metrics.total_score < y.metrics.total_score))
    (stocks_data.map a.analyze)

/-! ## src/services/yahoo_finance_service.py -/

/-- `YahooFinanceService._calculate_data_quality`: completeness score over
eight critical fields (weight 1.0) and five additional fields (weight 0.5). -/
def calculate_data_quality (valuation : ValuationMetrics)
    (profitability : ProfitabilityMetrics) (cash_flow : CashFlowMetrics)
    (leverage : LeverageMetrics) (dividend : DividendMetrics) : ℚ :=
  let critical_fields : List (Option ℚ) :=
    [valuation.pe_ratio, valuation.price_to_book, valuation.market_cap,
     profitability.roe, profitability.gross_margin, profitability.eps,
     leverage.debt_to_equity, cash_flow.operating_cash_flow]
  let additional_fields : List (Option ℚ) :=
    [valuation.forward_pe, profitability.profit_margin,
     profitability.operating_margin, cash_flow.free_cash_flow,
     dividend.dividend_yield]
  let critical_weight : ℚ := 1
  let additional_weight : ℚ := 0.5
  let total_weight : ℚ :=
    critical_fields.length * critical_weight + additional_fields.length * additional_weight
  let achieved_weight : ℚ :=
    (critical_fields.filter Option.isSome).length * critical_weight
      + (additional_fields.filter Option.isSome).length * additional_weight
  if total_weight = 0 then 0
  else min (achieved_weight / total_weight * 100) 100

/-! ## Helper lemmas: rounding -/

theorem le_round_half_even (n : ℤ) (q : ℚ) (h : (n : ℚ) ≤ q) :
    n ≤ round_half_even q := by
  unfold round_half_even
  have hf : n ≤ ⌊q⌋ := Int.le_floor.mpr h
  split_ifs <;> omega

theorem round_half_even_le (n : ℤ) (q : ℚ) (h : q ≤ (n : ℚ)) :
    round_half_even q ≤ n := by
  unfold round_half_even
  have hf : ⌊q⌋ ≤ n := by
    have h1 := Int.floor_le_floor h
    simpa using h1
  rcases lt_or_eq_of_le hf with hlt | heq
  · split_ifs <;> omega
  · have hfl : (⌊q⌋ : ℚ) = (n : ℚ) := by exact_mod_cast heq
    have hq : q - (⌊q⌋ : ℚ) < 1 / 2 := by
      rw [hfl]
      linarith
    rw [if_pos hq]
    omega

theorem round_half_even_intCast (n : ℤ) : round_half_even (n : ℚ) = n := by
  have h1 := le_round_half_even n (n : ℚ) le_rfl
  have h2 := round_half_even_le n (n : ℚ) le_rfl
  omega

theorem py_round2_nonneg (q : ℚ) (h : 0 ≤ q) : 0 ≤ py_round2 q := by
  unfold py_round2
  have h0 : (0 : ℤ) ≤ round_half_even (q * 100) := by
    refine le_round_half_even 0 _ ?_
    push_cast
    nlinarith
  have h0q : (0 : ℚ) ≤ (round_half_even (q * 100) : ℚ) := by exact_mod_cast h0
  positivity

theorem py_round2_le (q : ℚ) (n : ℤ) (h : q ≤ (n : ℚ)) : py_round2 q ≤ n := by
  have hr : round_half_even (q * 100) ≤ n * 100 := by
    refine round_half_even_le (n * 100) _ ?_
    push_cast
    nlinarith
  unfold py_round2
  rw [div_le_iff₀ (by norm_num : (0 : ℚ) < 100)]
  calc (round_half_even (q * 100) : ℚ) ≤ ((n * 100 : ℤ) : ℚ) := by exact_mod_cast hr
  _ = (n : ℚ) * 100 := by push_cast; ring

theorem py_round2_eq_of_mul_eq (q : ℚ) (n : ℤ) (h : q * 100 = (n : ℚ)) :
    py_round2 q = (n : ℚ) / 100 := by
  unfold py_round2
  rw [h, round_half_even_intCast]

/-! ## Helper lemmas: the stable sort -/

theorem length_stable_insert (b : α → α → Bool) (x : α) (l : List α) :
    (stable_insert b x l).length = l.length + 1 := by
  induction l with
  | nil => rfl
  | cons y ys ih =>
    unfold stable_insert
    split_ifs <;> simp [ih]

theorem length_stable_sort (b : α → α → Bool) (l : List α) :
    (stable_sort b l).length = l.length := by
  induction l with
  | nil => rfl
  | cons y ys ih =>
    unfold stable_sort at ih ⊢
    simp [List.foldr_cons, length_stable_insert, ih]

theorem stable_insert_perm (b : α → α → Bool) (x : α) (l : List α) :
    (stable_insert b x l).Perm (x :: l) := by
  induction l with
  | nil => rfl
  | cons y ys ih =>
    unfold stable_insert
    split_ifs
    · exact (ih.cons y).trans (List.Perm.swap x y ys)
    · rfl

theorem stable_sort_perm (b : α → α → Bool) (l : List α) :
    (stable_sort b l).Perm l := by
  induction l with
  | nil => rfl
  | cons y ys ih =>
    unfold stable_sort at ih ⊢
    rw [List.foldr_cons]
    exact (stable_insert_perm b y _).trans (ih.cons y)

theorem mem_stable_insert (b : α → α → Bool) (x z : α) (l : List α) :
    z ∈ stable_insert b x l ↔ z = x ∨ z ∈ l := by
  rw [(stable_insert_perm b x l).mem_iff]
  simp

theorem pairwise_stable_insert (R : α → α → Prop) (b : α → α → Bool)
    (h1 : ∀ x y, b x y = true → R x y) (h2 : ∀ x y, ¬ b x y = true → R y x)
    (htrans : ∀ x y z, R x y → R y z → R x z)
    (x : α) (l : List α) (hl : l.Pairwise R) :
    (stable_insert b x l).Pairwise R := by
  induction l with
  | nil => simp [stable_insert]
  | cons y ys ih =>
    unfold stable_insert
    rcases List.pairwise_cons.mp hl with ⟨hy, hys⟩
    split_ifs with hb
    · refine List.pairwise_cons.mpr ⟨?_, ih hys⟩
      intro z hz
      rcases (mem_stable_insert b x z ys).mp hz with rfl | hzys
      · exact h1 y z hb
      · exact hy z hzys
    · refine List.pairwise_cons.mpr ⟨?_, hl⟩
      intro z hz
      rcases List.mem_cons.mp hz with rfl | hzys
      · exact h2 z x hb
      · exact htrans x y z (h2 y x hb) (hy z hzys)

theorem pairwise_stable_sort (R : α → α → Prop) (b : α → α → Bool)
    (h1 : ∀ x y, b x y = true → R x y) (h2 : ∀ x y, ¬ b x y = true → R y x)
    (htrans : ∀ x y z, R x y → R y z → R x z) (l : List α) :
    (stable_sort b l).Pairwise R := by
  induction l with
  | nil => simp [stable_sort]
  | cons y ys ih =>
    unfold stable_sort at ih ⊢
    rw [List.foldr_cons]
    exact pairwise_stable_insert R b h1 h2 htrans y _ ih

theorem filter_stable_insert_key (k : α → ℚ) (s : ℚ) (x : α) (l : List α) :
    (stable_insert (fun y x => decide (k x < k y)) x l).filter (fun r => decide (k r = s))
      = if k x = s then x :: l.filter (fun r => decide (k r = s))
        else l.filter (fun r => decide (k r = s)) := by
  induction l with
  | nil =>
    unfold stable_insert
    by_cases hx : k x = s <;> simp [hx]
  | cons y ys ih =>
    unfold stable_insert
    by_cases hb : k x < k y
    · have hyb : decide (k x < k y) = true := by simpa using hb
      rw [if_pos hyb, List.filter_cons, List.filter_cons, ih]
      by_cases hx : k x = s
      · have hy : ¬ (k y = s) := by
          intro hy
          rw [hx] at hb
          rw [hy] at hb
          exact lt_irrefl s hb
        simp [hx, hy]
      · by_cases hy : k y = s <;> simp [hx, hy]
    · have hyb : ¬ decide (k x < k y) = true := by simpa using hb
      rw [if_neg hyb, List.filter_cons, List.filter_cons]
      by_cases hx : k x = s <;> by_cases hy : k y = s <;> simp [hx, hy, List.filter_cons]

theorem filter_stable_sort_key (k : α → ℚ) (s : ℚ) (l : List α) :
    (stable_sort (fun y x => decide (k x < k y)) l).filter (fun r => decide (k r = s))
      = l.filter (fun r => decide (k r = s)) := by
  induction l with
  | nil => rfl
  | cons y ys ih =>
    unfold stable_sort at ih ⊢
    rw [List.foldr_cons, filter_stable_insert_key, List.filter_cons]
    by_cases hy : k y = s <;> simp [hy, ih]

/-! ## Helper lemmas: the growth-trend counter -/

/-- The sentence of the spec, word for word: the number of adjacent pairs
`(values[i-1], values[i])` with `values[i] > values[i-1]`. -/
def adjacent_increases_spec (values : List ℚ) : ℕ :=
  (values.zip values.tail).countP fun p => decide (p.1 < p.2)

theorem count_positive_changes_eq_spec (values : List ℚ) :
    count_positive_changes values = adjacent_increases_spec values := by
  unfold adjacent_increases_spec
  induction values with
  | nil => rfl
  | cons a rest ih =>
    cases rest with
    | nil => rfl
    | cons b rest2 =>
      unfold count_positive_changes
      rw [ih]
      simp only [List.tail_cons, List.zip_cons_cons, List.countP_cons]
      by_cases hab : a < b <;> simp [hab, Nat.add_comm]

theorem count_positive_changes_le (values : List ℚ) :
    count_positive_changes values ≤ values.length - 1 := by
  induction values with
  | nil => simp [count_positive_changes]
  | cons a rest ih =>
    cases rest with
    | nil => simp [count_positive_changes]
    | cons b rest2 =>
      unfold count_positive_changes
      have hlen : (b :: rest2).length - 1 + 1 = (a :: b :: rest2).length - 1 := by
        simp
      split_ifs <;> omega

theorem is_growing_trend_false_of_short (values : List ℚ) (m : ℕ)
    (hm : values.length < m + 1) :
    is_growing_trend values m = false := by
  unfold is_growing_trend
  split_ifs with h2
  · rfl
  · have hc := count_positive_changes_le values
    simp only [decide_eq_false_iff_not]
    omega

/-! ## Helper lemmas: bounds of every scoring block -/

theorem valuation_pe_block_score_bounds (crit : ValuationCriteria) (pe? : Option ℚ)
    (r : ScreeningResult) :
    0 ≤ (valuation_pe_block crit pe? r).1 ∧ (valuation_pe_block crit pe? r).1 ≤ 40 := by
  rcases pe? with _ | pe
  · simp only [valuation_pe_block]
    norm_num
  · simp only [valuation_pe_block]
    split_ifs <;> norm_num

theorem valuation_pbv_block_score_bounds (crit : ValuationCriteria) (pbv? : Option ℚ)
    (r : ScreeningResult) :
    0 ≤ (valuation_pbv_block crit pbv? r).1 ∧ (valuation_pbv_block crit pbv? r).1 ≤ 40 := by
  rcases pbv? with _ | pbv
  · simp only [valuation_pbv_block]
    norm_num
  · simp only [valuation_pbv_block]
    split_ifs <;> norm_num

theorem valuation_mcap_block_score_bounds (crit : ValuationCriteria) (mc? : Option ℚ)
    (r : ScreeningResult) :
    0 ≤ (valuation_mcap_block crit mc? r).1 ∧ (valuation_mcap_block crit mc? r).1 ≤ 20 := by
  rcases mc? with _ | mc
  · simp only [valuation_mcap_block]
    norm_num
  · simp only [valuation_mcap_block]
    split_ifs <;> norm_num

theorem profitability_eps_block_score_bounds (h : List (ℤ × ℚ)) (r : ScreeningResult) :
    0 ≤ (profitability_eps_block h r).1 ∧ (profitability_eps_block h r).1 ≤ 30 := by
  simp only [profitability_eps_block]
  split_ifs <;> norm_num

theorem profitability_gpm_block_score_bounds (crit : ProfitabilityCriteria) (gpm? : Option ℚ)
    (r : ScreeningResult) :
    0 ≤ (profitability_gpm_block crit gpm? r).1 ∧ (profitability_gpm_block crit gpm? r).1 ≤ 25 := by
  rcases gpm? with _ | gpm
  · simp only [profitability_gpm_block]
    norm_num
  · simp only [profitability_gpm_block]
    split_ifs <;> norm_num

theorem profitability_roe_block_score_bounds (crit : ProfitabilityCriteria) (roe? : Option ℚ)
    (r : ScreeningResult) :
    0 ≤ (profitability_roe_block crit roe? r).1 ∧ (profitability_roe_block crit roe? r).1 ≤ 25 := by
  rcases roe? with _ | roe
  · simp only [profitability_roe_block]
    norm_num
  · simp only [profitability_roe_block]
    split_ifs <;> norm_num

theorem profitability_ocf_block_score_bounds (ocf? : Option ℚ) (r : ScreeningResult) :
    0 ≤ (profitability_ocf_block ocf? r).1 ∧ (profitability_ocf_block ocf? r).1 ≤ 10 := by
  rcases ocf? with _ | ocf
  · simp only [profitability_ocf_block]
    norm_num
  · simp only [profitability_ocf_block]
    split_ifs <;> norm_num

theorem profitability_fcf_block_score_bounds (fcf? : Option ℚ) (r : ScreeningResult) :
    0 ≤ (profitability_fcf_block fcf? r).1 ∧ (profitability_fcf_block fcf? r).1 ≤ 10 := by
  rcases fcf? with _ | fcf
  · simp only [profitability_fcf_block]
    norm_num
  · simp only [profitability_fcf_block]
    split_ifs <;> norm_num

theorem risk_dte_block_score_bounds (crit : RiskCriteria) (dte? : Option ℚ)
    (r : ScreeningResult) :
    0 ≤ (risk_dte_block crit dte? r).1 ∧ (risk_dte_block crit dte? r).1 ≤ 70 := by
  rcases dte? with _ | dte
  · simp only [risk_dte_block]
    norm_num
  · simp only [risk_dte_block]
    split_ifs <;> norm_num

theorem risk_beta_block_score_bounds (crit : RiskCriteria) (beta? : Option ℚ)
    (r : ScreeningResult) :
    5 ≤ (risk_beta_block crit beta? r).1 ∧ (risk_beta_block crit beta? r).1 ≤ 30 := by
  rcases beta? with _ | beta
  · simp only [risk_beta_block]
    norm_num
  · simp only [risk_beta_block]
    split_ifs <;> norm_num

theorem dividend_block_score_bounds (crit : DividendCriteria) (dy? : Option ℚ)
    (r : ScreeningResult) :
    0 ≤ (dividend_block crit dy? r).1 ∧ (dividend_block crit dy? r).1 ≤ 100 := by
  rcases dy? with _ | dy
  · simp only [dividend_block]
    split_ifs <;> norm_num
  · simp only [dividend_block]
    split_ifs <;> norm_num

/-! ## Helper lemmas: bounds of every category score -/

theorem analyze_valuation_score_bounds (a : FundamentalAnalyzer) (sd : StockData)
    (r : ScreeningResult) :
    0 ≤ (a.analyze_valuation sd r).1.score ∧ (a.analyze_valuation sd r).1.score ≤ 100 := by
  have h1 := valuation_pe_block_score_bounds a.criteria.valuation sd.valuation.pe_ratio r
  simp only [FundamentalAnalyzer.analyze_valuation]
  generalize hB1 : valuation_pe_block a.criteria.valuation sd.valuation.pe_ratio r = B1 at h1 ⊢
  have h2 := valuation_pbv_block_score_bounds a.criteria.valuation sd.valuation.price_to_book B1.2.2
  generalize hB2 : valuation_pbv_block a.criteria.valuation sd.valuation.price_to_book B1.2.2 = B2 at h2 ⊢
  have h3 := valuation_mcap_block_score_bounds a.criteria.valuation sd.valuation.market_cap B2.2.2
  constructor <;> linarith [h3.1, h3.2]

theorem analyze_profitability_score_bounds (a : FundamentalAnalyzer) (sd : StockData)
    (r : ScreeningResult) :
    0 ≤ (a.analyze_profitability sd r).1.score ∧ (a.analyze_profitability sd r).1.score ≤ 100 := by
  have h1 := profitability_eps_block_score_bounds sd.profitability.eps_history r
  simp only [FundamentalAnalyzer.analyze_profitability]
  generalize hB1 : profitability_eps_block sd.profitability.eps_history r = B1 at h1 ⊢
  have h2 := profitability_gpm_block_score_bounds a.criteria.profitability sd.profitability.gross_margin B1.2.2
  generalize hB2 : profitability_gpm_block a.criteria.profitability sd.profitability.gross_margin B1.2.2 = B2 at h2 ⊢
  have h3 := profitability_roe_block_score_bounds a.criteria.profitability sd.profitability.roe B2.2.2
  generalize hB3 : profitability_roe_block a.criteria.profitability sd.profitability.roe B2.2.2 = B3 at h3 ⊢
  have h4 := profitability_ocf_block_score_bounds sd.cash_flow.operating_cash_flow B3.2.2
  generalize hB4 : profitability_ocf_block sd.cash_flow.operating_cash_flow B3.2.2 = B4 at h4 ⊢
  have h5 := profitability_fcf_block_score_bounds sd.cash_flow.free_cash_flow B4.2.2
  constructor <;> linarith [h5.1, h5.2]

theorem analyze_risk_score_bounds (a : FundamentalAnalyzer) (sd : StockData)
    (r : ScreeningResult) :
    5 ≤ (a.analyze_risk sd r).1.score ∧ (a.analyze_risk sd r).1.score ≤ 100 := by
  have h1 := risk_dte_block_score_bounds a.criteria.risk sd.leverage.debt_to_equity r
  simp only [FundamentalAnalyzer.analyze_risk]
  generalize hB1 : risk_dte_block a.criteria.risk sd.leverage.debt_to_equity r = B1 at h1 ⊢
  have h2 := risk_beta_block_score_bounds a.criteria.risk sd.leverage.beta B1.2.2
  constructor <;> linarith [h2.1, h2.2]

theorem analyze_dividend_score_bounds (a : FundamentalAnalyzer) (sd : StockData)
    (r : ScreeningResult) :
    0 ≤ (a.analyze_dividend sd r).1.score ∧ (a.analyze_dividend sd r).1.score ≤ 100 := by
  have h1 := dividend_block_score_bounds a.criteria.dividend sd.dividend.dividend_yield r
  simp only [FundamentalAnalyzer.analyze_dividend]
  constructor <;> linarith [h1.1, h1.2]

/-! ## Helper lemmas: category scores as seen in the final result -/

theorem analyze_valuation_category_bounds (a : FundamentalAnalyzer) (sd : StockData) :
    0 ≤ (a.analyze sd).metrics.valuation_score.score
      ∧ (a.analyze sd).metrics.valuation_score.score ≤ 100 := by
  simp only [FundamentalAnalyzer.analyze]
  exact analyze_valuation_score_bounds a sd _

theorem analyze_profitability_category_bounds (a : FundamentalAnalyzer) (sd : StockData) :
    0 ≤ (a.analyze sd).metrics.profitability_score.score
      ∧ (a.analyze sd).metrics.profitability_score.score ≤ 100 := by
  simp only [FundamentalAnalyzer.analyze]
  exact analyze_profitability_score_bounds a sd _

theorem analyze_risk_category_bounds (a : FundamentalAnalyzer) (sd : StockData) :
    5 ≤ (a.analyze sd).metrics.risk_score.score
      ∧ (a.analyze sd).metrics.risk_score.score ≤ 100 := by
  simp only [FundamentalAnalyzer.analyze]
  exact analyze_risk_score_bounds a sd _

theorem analyze_dividend_category_bounds (a : FundamentalAnalyzer) (sd : StockData) :
    0 ≤ (a.analyze sd).metrics.dividend_score.score
      ∧ (a.analyze sd).metrics.dividend_score.score ≤ 100 := by
  simp only [FundamentalAnalyzer.analyze]
  exact analyze_dividend_score_bounds a sd _

theorem analyze_total_score_eq (a : FundamentalAnalyzer) (sd : StockData) :
    (a.analyze sd).metrics.total_score =
      py_round2 ((a.analyze sd).metrics.valuation_score.score * a.weights.valuation_weight
        + (a.analyze sd).metrics.profitability_score.score * a.weights.profitability_weight
        + (a.analyze sd).metrics.risk_score.score * a.weights.risk_weight
        + (a.analyze sd).metrics.dividend_score.score * a.weights.dividend_weight) := rfl

theorem analyze_rating_eq (a : FundamentalAnalyzer) (sd : StockData) :
    (a.analyze sd).rating = rating_from_score (a.analyze sd).metrics.total_score := rfl

/-! ## Helper lemmas: which block can record the incomplete-data red flag -/

theorem mem_rf_valuation_pe_block (crit : ValuationCriteria) (pe? : Option ℚ)
    (r : ScreeningResult) :
    Msg.data_tidak_lengkap ∈ (valuation_pe_block crit pe? r).2.2.red_flags
      ↔ Msg.data_tidak_lengkap ∈ r.red_flags := by
  rcases pe? with _ | pe <;>
    simp only [valuation_pe_block] <;>
    (try split_ifs) <;>
    simp [ScreeningResult.add_strength, ScreeningResult.add_weakness,
      ScreeningResult.add_red_flag, ScreeningResult.add_insight]

theorem mem_rf_valuation_pbv_block (crit : ValuationCriteria) (pbv? : Option ℚ)
    (r : ScreeningResult) :
    Msg.data_tidak_lengkap ∈ (valuation_pbv_block crit pbv? r).2.2.red_flags
      ↔ Msg.data_tidak_lengkap ∈ r.red_flags := by
  rcases pbv? with _ | pbv <;>
    simp only [valuation_pbv_block] <;>
    (try split_ifs) <;>
    simp [ScreeningResult.add_strength, ScreeningResult.add_weakness,
      ScreeningResult.add_red_flag, ScreeningResult.add_insight]

theorem mem_rf_valuation_mcap_block (crit : ValuationCriteria) (mc? : Option ℚ)
    (r : ScreeningResult) :
    Msg.data_tidak_lengkap ∈ (valuation_mcap_block crit mc? r).2.2.red_flags
      ↔ Msg.data_tidak_lengkap ∈ r.red_flags := by
  rcases mc? with _ | mc <;>
    simp only [valuation_mcap_block] <;>
    (try split_ifs) <;>
    simp [ScreeningResult.add_strength, ScreeningResult.add_weakness,
      ScreeningResult.add_red_flag, ScreeningResult.add_insight]

theorem mem_rf_profitability_eps_block (h : List (ℤ × ℚ)) (r : ScreeningResult) :
    Msg.data_tidak_lengkap ∈ (profitability_eps_block h r).2.2.red_flags
      ↔ Msg.data_tidak_lengkap ∈ r.red_flags := by
  simp only [profitability_eps_block]
  split_ifs <;>
    simp [ScreeningResult.add_strength, ScreeningResult.add_weakness,
      ScreeningResult.add_red_flag, ScreeningResult.add_insight]

theorem mem_rf_profitability_gpm_block (crit : ProfitabilityCriteria) (gpm? : Option ℚ)
    (r : ScreeningResult) :
    Msg.data_tidak_lengkap ∈ (profitability_gpm_block crit gpm? r).2.2.red_flags
      ↔ Msg.data_tidak_lengkap ∈ r.red_flags := by
  rcases gpm? with _ | gpm <;>
    simp only [profitability_gpm_block] <;>
    (try split_ifs) <;>
    simp [ScreeningResult.add_strength, ScreeningResult.add_weakness,
      ScreeningResult.add_red_flag, ScreeningResult.add_insight]

theorem mem_rf_profitability_roe_block (crit : ProfitabilityCriteria) (roe? : Option ℚ)
    (r : ScreeningResult) :
    Msg.data_tidak_lengkap ∈ (profitability_roe_block crit roe? r).2.2.red_flags
      ↔ Msg.data_tidak_lengkap ∈ r.red_flags := by
  rcases roe? with _ | roe <;>
    simp only [profitability_roe_block] <;>
    (try split_ifs) <;>
    simp [ScreeningResult.add_strength, ScreeningResult.add_weakness,
      ScreeningResult.add_red_flag, ScreeningResult.add_insight]

theorem mem_rf_profitability_ocf_block (ocf? : Option ℚ) (r : ScreeningResult) :
    Msg.data_tidak_lengkap ∈ (profitability_ocf_block ocf? r).2.2.red_flags
      ↔ Msg.data_tidak_lengkap ∈ r.red_flags := by
  rcases ocf? with _ | ocf <;>
    simp only [profitability_ocf_block] <;>
    (try split_ifs) <;>
    simp [ScreeningResult.add_strength, ScreeningResult.add_weakness,
      ScreeningResult.add_red_flag, ScreeningResult.add_insight]

theorem mem_rf_profitability_fcf_block (fcf? : Option ℚ) (r : ScreeningResult) :
    Msg.data_tidak_lengkap ∈ (profitability_fcf_block fcf? r).2.2.red_flags
      ↔ Msg.data_tidak_lengkap ∈ r.red_flags := by
  rcases fcf? with _ | fcf <;>
    simp only [profitability_fcf_block] <;>
    (try split_ifs) <;>
    simp [ScreeningResult.add_strength, ScreeningResult.add_weakness,
      ScreeningResult.add_red_flag, ScreeningResult.add_insight]

theorem mem_rf_risk_dte_block (crit : RiskCriteria) (dte? : Option ℚ)
    (r : ScreeningResult) :
    Msg.data_tidak_lengkap ∈ (risk_dte_block crit dte? r).2.2.red_flags
      ↔ Msg.data_tidak_lengkap ∈ r.red_flags := by
  rcases dte? with _ | dte <;>
    simp only [risk_dte_block] <;>
    (try split_ifs) <;>
    simp [ScreeningResult.add_strength, ScreeningResult.add_weakness,
      ScreeningResult.add_red_flag, ScreeningResult.add_insight]

theorem mem_rf_risk_beta_block (crit : RiskCriteria) (beta? : Option ℚ)
    (r : ScreeningResult) :
    Msg.data_tidak_lengkap ∈ (risk_beta_block crit beta? r).2.2.red_flags
      ↔ Msg.data_tidak_lengkap ∈ r.red_flags := by
  rcases beta? with _ | beta <;>
    simp only [risk_beta_block] <;>
    (try split_ifs) <;>
    simp [ScreeningResult.add_strength, ScreeningResult.add_weakness,
      ScreeningResult.add_red_flag, ScreeningResult.add_insight]

theorem mem_rf_dividend_block (crit : DividendCriteria) (dy? : Option ℚ)
    (r : ScreeningResult) :
    Msg.data_tidak_lengkap ∈ (dividend_block crit dy? r).2.2.red_flags
      ↔ Msg.data_tidak_lengkap ∈ r.red_flags := by
  rcases dy? with _ | dy <;>
    simp only [dividend_block] <;>
    (try split_ifs) <;>
    simp [ScreeningResult.add_strength, ScreeningResult.add_weakness,
      ScreeningResult.add_red_flag, ScreeningResult.add_insight]

theorem mem_rf_analyze_valuation (a : FundamentalAnalyzer) (sd : StockData)
    (r : ScreeningResult) :
    Msg.data_tidak_lengkap ∈ (a.analyze_valuation sd r).2.red_flags
      ↔ Msg.data_tidak_lengkap ∈ r.red_flags := by
  simp only [FundamentalAnalyzer.analyze_valuation]
  rw [mem_rf_valuation_mcap_block, mem_rf_valuation_pbv_block, mem_rf_valuation_pe_block]

theorem mem_rf_analyze_profitability (a : FundamentalAnalyzer) (sd : StockData)
    (r : ScreeningResult) :
    Msg.data_tidak_lengkap ∈ (a.analyze_profitability sd r).2.red_flags
      ↔ Msg.data_tidak_lengkap ∈ r.red_flags := by
  simp only [FundamentalAnalyzer.analyze_profitability]
  rw [mem_rf_profitability_fcf_block, mem_rf_profitability_ocf_block,
    mem_rf_profitability_roe_block, mem_rf_profitability_gpm_block,
    mem_rf_profitability_eps_block]

theorem mem_rf_analyze_risk (a : FundamentalAnalyzer) (sd : StockData)
    (r : ScreeningResult) :
    Msg.data_tidak_lengkap ∈ (a.analyze_risk sd r).2.red_flags
      ↔ Msg.data_tidak_lengkap ∈ r.red_flags := by
  simp only [FundamentalAnalyzer.analyze_risk]
  rw [mem_rf_risk_beta_block, mem_rf_risk_dte_block]

theorem mem_rf_analyze_dividend (a : FundamentalAnalyzer) (sd : StockData)
    (r : ScreeningResult) :
    Msg.data_tidak_lengkap ∈ (a.analyze_dividend sd r).2.red_flags
      ↔ Msg.data_tidak_lengkap ∈ r.red_flags := by
  simp only [FundamentalAnalyzer.analyze_dividend]
  rw [mem_rf_dividend_block]

theorem mem_rf_analyze (a : FundamentalAnalyzer) (sd : StockData) :
    Msg.data_tidak_lengkap ∈ (a.analyze sd).red_flags
      ↔ sd.has_complete_data = false := by
  simp only [FundamentalAnalyzer.analyze]
  rw [mem_rf_analyze_dividend, mem_rf_analyze_risk, mem_rf_analyze_profitability,
    mem_rf_analyze_valuation]
  cases hc : sd.has_complete_data <;>
    simp [hc, ScreeningResult.add_red_flag]

/-! ## Concrete instances used by the claims -/

/-- Analyzer with the library defaults. -/
def analyzer_default : FundamentalAnalyzer := {}

def info_X : CompanyInfo := { ticker := "X", name := "X Corp" }

/-- A fresh result value, as `analyze` would create it, used as the threaded
accumulator in block-level witnesses. -/
def base_result : ScreeningResult := { ticker := "X", company_name := "X Corp" }

/-- A `StockData` whose every optional metric is absent (entity with zero
data). -/
def zero_data_stock (info : CompanyInfo) : StockData := { company_info := info }

def val_full : ValuationMetrics :=
  { pe_ratio := some 4, price_to_book := some 0.8, market_cap := some 200000000000000 }

def prof_full : ProfitabilityMetrics :=
  { gross_margin := some 0.4, roe := some 0.2,
    eps_history := [(2020, 1), (2021, 2), (2022, 3), (2023, 4)] }

def cash_full : CashFlowMetrics := { operating_cash_flow := some 1, free_cash_flow := some 1 }

def lev_full : LeverageMetrics := { debt_to_equity := some 0.3, beta := some 0.9 }

/-- An entity scoring 100 in all four categories under the default criteria. -/
def stock_perfect : StockData :=
  { company_info := info_X, valuation := val_full, profitability := prof_full,
    cash_flow := cash_full, leverage := lev_full,
    dividend := { dividend_yield := some 0.05 } }

/-- Accepted weights summing to 1.01 (the top of the tolerance band). -/
def weights_101 : ScoringWeights := { valuation_weight := 0.26 }

def analyzer_101 : FundamentalAnalyzer := { weights := weights_101 }

/-- Accepted weights with a negative component: the sum is exactly 1. -/
def weights_negative : ScoringWeights :=
  { valuation_weight := 1.5, profitability_weight := -0.5,
    risk_weight := 0, dividend_weight := 0 }

def analyzer_negative : FundamentalAnalyzer := { weights := weights_negative }

/-- An entity with only valuation data (valuation 100, profitability 0). -/
def stock_valuation_only : StockData := { company_info := info_X, valuation := val_full }

/-- Accepted weights (summing exactly to 1) under which total scores of
91.2, 72.0 and 45.5 are all reachable. -/
def weights_batch : ScoringWeights :=
  { valuation_weight := 1717 / 3800, profitability_weight := 1007 / 3800,
    risk_weight := 240 / 3800, dividend_weight := 836 / 3800 }

def analyzer_batch : FundamentalAnalyzer := { weights := weights_batch }

/-- Batch entity scoring 91.2 under `analyzer_batch`. -/
def stock_A : StockData :=
  { company_info := { ticker := "A", name := "A Corp" }, valuation := val_full,
    profitability := prof_full, cash_flow := cash_full, leverage := lev_full,
    dividend := { dividend_yield := some 0.03 } }

/-- Batch entity scoring 72.0 under `analyzer_batch`. -/
def stock_B : StockData :=
  { company_info := { ticker := "B", name := "B Corp" }, valuation := val_full,
    profitability := prof_full, cash_flow := cash_full,
    leverage := { beta := some 2 } }

/-- Batch entity scoring 45.5 under `analyzer_batch`. -/
def stock_C : StockData :=
  { company_info := { ticker := "C", name := "C Corp" }, valuation := val_full,
    leverage := { beta := some 2 } }

def val_gap : ValuationMetrics :=
  { pe_ratio := some 10, price_to_book := some 1.5, market_cap := some 5000000000000 }

def prof_gap : ProfitabilityMetrics :=
  { roe := some 0.12, gross_margin := some 0.25, eps := some 100 }

def cash_gap : CashFlowMetrics := { operating_cash_flow := some 5 }

def lev_gap : LeverageMetrics := { debt_to_equity := some 0.8 }

def div_gap : DividendMetrics := { dividend_yield := some 0.03 }

/-- An entity whose data-layer completeness score is below 100% (several
additional fields are absent) although all five metrics checked by
`has_complete_data` are present. -/
def stock_incomplete_quality : StockData :=
  { company_info := info_X, valuation := val_gap, profitability := prof_gap,
    cash_flow := cash_gap, leverage := lev_gap, dividend := div_gap,
    data_quality_score :=
      some (calculate_data_quality val_gap prof_gap cash_gap lev_gap div_gap) }

/-! ## Concrete evaluations -/

theorem total_analyzer_101_stock_perfect :
    (analyzer_101.analyze stock_perfect).metrics.total_score = 101 := by
  have h : (analyzer_101.analyze stock_perfect).metrics.total_score = py_round2 101 := by
    norm_num [FundamentalAnalyzer.analyze, FundamentalAnalyzer.analyze_valuation,
      FundamentalAnalyzer.analyze_profitability, FundamentalAnalyzer.analyze_risk,
      FundamentalAnalyzer.analyze_dividend, FundamentalAnalyzer.calculate_total_score,
      valuation_pe_block, valuation_pbv_block, valuation_mcap_block,
      profitability_eps_block, profitability_gpm_block, profitability_roe_block,
      profitability_ocf_block, profitability_fcf_block,
      risk_dte_block, risk_beta_block, dividend_block,
      ScreeningResult.add_strength, ScreeningResult.add_weakness,
      ScreeningResult.add_red_flag, ScreeningResult.add_insight,
      is_growing_trend, count_positive_changes, eps_values_sorted, last_over_prev,
      stable_sort, stable_insert,
      analyzer_101, weights_101, DEFAULT_CRITERIA, DEFAULT_WEIGHTS,
      stock_perfect, val_full, prof_full, cash_full, lev_full]
  rw [h, py_round2_eq_of_mul_eq 101 10100 (by norm_num)]
  norm_num

theorem total_analyzer_negative_stock_valuation_only :
    (analyzer_negative.analyze stock_valuation_only).metrics.total_score = 150 := by
  have h : (analyzer_negative.analyze stock_valuation_only).metrics.total_score
      = py_round2 150 := by
    norm_num [FundamentalAnalyzer.analyze, FundamentalAnalyzer.analyze_valuation,
      FundamentalAnalyzer.analyze_profitability, FundamentalAnalyzer.analyze_risk,
      FundamentalAnalyzer.analyze_dividend, FundamentalAnalyzer.calculate_total_score,
      valuation_pe_block, valuation_pbv_block, valuation_mcap_block,
      profitability_eps_block, profitability_gpm_block, profitability_roe_block,
      profitability_ocf_block, profitability_fcf_block,
      risk_dte_block, risk_beta_block, dividend_block,
      ScreeningResult.add_strength, ScreeningResult.add_weakness,
      ScreeningResult.add_red_flag, ScreeningResult.add_insight,
      is_growing_trend, count_positive_changes, eps_values_sorted, last_over_prev,
      stable_sort, stable_insert,
      analyzer_negative, weights_negative, DEFAULT_CRITERIA,
      stock_valuation_only, val_full]
  rw [h, py_round2_eq_of_mul_eq 150 15000 (by norm_num)]
  norm_num

theorem total_zero_data_default :
    (analyzer_default.analyze (zero_data_stock info_X)).metrics.total_score = 3 := by
  have h : (analyzer_default.analyze (zero_data_stock info_X)).metrics.total_score
      = py_round2 3 := by
    norm_num [FundamentalAnalyzer.analyze, FundamentalAnalyzer.analyze_valuation,
      FundamentalAnalyzer.analyze_profitability, FundamentalAnalyzer.analyze_risk,
      FundamentalAnalyzer.analyze_dividend, FundamentalAnalyzer.calculate_total_score,
      valuation_pe_block, valuation_pbv_block, valuation_mcap_block,
      profitability_eps_block, profitability_gpm_block, profitability_roe_block,
      profitability_ocf_block, profitability_fcf_block,
      risk_dte_block, risk_beta_block, dividend_block,
      ScreeningResult.add_strength, ScreeningResult.add_weakness,
      ScreeningResult.add_red_flag, ScreeningResult.add_insight,
      is_growing_trend, count_positive_changes, eps_values_sorted, last_over_prev,
      stable_sort, stable_insert,
      analyzer_default, DEFAULT_CRITERIA, DEFAULT_WEIGHTS,
      zero_data_stock, info_X]
  rw [h, py_round2_eq_of_mul_eq 3 300 (by norm_num)]
  norm_num

theorem total_batch_stock_A :
    (analyzer_batch.analyze stock_A).metrics.total_score = 91.2 := by
  have h : (analyzer_batch.analyze stock_A).metrics.total_score = py_round2 (456 / 5) := by
    norm_num [FundamentalAnalyzer.analyze, FundamentalAnalyzer.analyze_valuation,
      FundamentalAnalyzer.analyze_profitability, FundamentalAnalyzer.analyze_risk,
      FundamentalAnalyzer.analyze_dividend, FundamentalAnalyzer.calculate_total_score,
      valuation_pe_block, valuation_pbv_block, valuation_mcap_block,
      profitability_eps_block, profitability_gpm_block, profitability_roe_block,
      profitability_ocf_block, profitability_fcf_block,
      risk_dte_block, risk_beta_block, dividend_block,
      ScreeningResult.add_strength, ScreeningResult.add_weakness,
      ScreeningResult.add_red_flag, ScreeningResult.add_insight,
      is_growing_trend, count_positive_changes, eps_values_sorted, last_over_prev,
      stable_sort, stable_insert,
      analyzer_batch, weights_batch, DEFAULT_CRITERIA,
      stock_A, val_full, prof_full, cash_full, lev_full]
  rw [h, py_round2_eq_of_mul_eq (456 / 5) 9120 (by norm_num)]
  norm_num

theorem total_batch_stock_B :
    (analyzer_batch.analyze stock_B).metrics.total_score = 72 := by
  have h : (analyzer_batch.analyze stock_B).metrics.total_score = py_round2 72 := by
    norm_num [FundamentalAnalyzer.analyze, FundamentalAnalyzer.analyze_valuation,
      FundamentalAnalyzer.analyze_profitability, FundamentalAnalyzer.analyze_risk,
      FundamentalAnalyzer.analyze_dividend, FundamentalAnalyzer.calculate_total_score,
      valuation_pe_block, valuation_pbv_block, valuation_mcap_block,
      profitability_eps_block, profitability_gpm_block, profitability_roe_block,
      profitability_ocf_block, profitability_fcf_block,
      risk_dte_block, risk_beta_block, dividend_block,
      ScreeningResult.add_strength, ScreeningResult.add_weakness,
      ScreeningResult.add_red_flag, ScreeningResult.add_insight,
      is_growing_trend, count_positive_changes, eps_values_sorted, last_over_prev,
      stable_sort, stable_insert,
      analyzer_batch, weights_batch, DEFAULT_CRITERIA,
      stock_B, val_full, prof_full, cash_full]
  rw [h, py_round2_eq_of_mul_eq 72 7200 (by norm_num)]
  norm_num

theorem total_batch_stock_C :
    (analyzer_batch.analyze stock_C).metrics.total_score = 45.5 := by
  have h : (analyzer_batch.analyze stock_C).metrics.total_score = py_round2 (91 / 2) := by
    norm_num [FundamentalAnalyzer.analyze, FundamentalAnalyzer.analyze_valuation,
      FundamentalAnalyzer.analyze_profitability, FundamentalAnalyzer.analyze_risk,
      FundamentalAnalyzer.analyze_dividend, FundamentalAnalyzer.calculate_total_score,
      valuation_pe_block, valuation_pbv_block, valuation_mcap_block,
      profitability_eps_block, profitability_gpm_block, profitability_roe_block,
      profitability_ocf_block, profitability_fcf_block,
      risk_dte_block, risk_beta_block, dividend_block,
      ScreeningResult.add_strength, ScreeningResult.add_weakness,
      ScreeningResult.add_red_flag, ScreeningResult.add_insight,
      is_growing_trend, count_positive_changes, eps_values_sorted, last_over_prev,
      stable_sort, stable_insert,
      analyzer_batch, weights_batch, DEFAULT_CRITERIA,
      stock_C, val_full]
  rw [h, py_round2_eq_of_mul_eq (91 / 2) 4550 (by norm_num)]
  norm_num

theorem ticker_batch_stock_A : (analyzer_batch.analyze stock_A).ticker = "A" := by
  norm_num [FundamentalAnalyzer.analyze, FundamentalAnalyzer.analyze_valuation,
    FundamentalAnalyzer.analyze_profitability, FundamentalAnalyzer.analyze_risk,
    FundamentalAnalyzer.analyze_dividend,
    valuation_pe_block, valuation_pbv_block, valuation_mcap_block,
    profitability_eps_block, profitability_gpm_block, profitability_roe_block,
    profitability_ocf_block, profitability_fcf_block,
    risk_dte_block, risk_beta_block, dividend_block,
    ScreeningResult.add_strength, ScreeningResult.add_weakness,
    ScreeningResult.add_red_flag, ScreeningResult.add_insight,
    is_growing_trend, count_positive_changes, eps_values_sorted, last_over_prev,
    stable_sort, stable_insert, StockData.get_ticker, StockData.has_complete_data,
    analyzer_batch, weights_batch, DEFAULT_CRITERIA,
    stock_A, val_full, prof_full, cash_full, lev_full]

theorem ticker_batch_stock_B : (analyzer_batch.analyze stock_B).ticker = "B" := by
  norm_num [FundamentalAnalyzer.analyze, FundamentalAnalyzer.analyze_valuation,
    FundamentalAnalyzer.analyze_profitability, FundamentalAnalyzer.analyze_risk,
    FundamentalAnalyzer.analyze_dividend,
    valuation_pe_block, valuation_pbv_block, valuation_mcap_block,
    profitability_eps_block, profitability_gpm_block, profitability_roe_block,
    profitability_ocf_block, profitability_fcf_block,
    risk_dte_block, risk_beta_block, dividend_block,
    ScreeningResult.add_strength, ScreeningResult.add_weakness,
    ScreeningResult.add_red_flag, ScreeningResult.add_insight,
    is_growing_trend, count_positive_changes, eps_values_sorted, last_over_prev,
    stable_sort, stable_insert, StockData.get_ticker, StockData.has_complete_data,
    analyzer_batch, weights_batch, DEFAULT_CRITERIA,
    stock_B, val_full, prof_full, cash_full]

theorem ticker_batch_stock_C : (analyzer_batch.analyze stock_C).ticker = "C" := by
  norm_num [FundamentalAnalyzer.analyze, FundamentalAnalyzer.analyze_valuation,
    FundamentalAnalyzer.analyze_profitability, FundamentalAnalyzer.analyze_risk,
    FundamentalAnalyzer.analyze_dividend,
    valuation_pe_block, valuation_pbv_block, valuation_mcap_block,
    profitability_eps_block, profitability_gpm_block, profitability_roe_block,
    profitability_ocf_block, profitability_fcf_block,
    risk_dte_block, risk_beta_block, dividend_block,
    ScreeningResult.add_strength, ScreeningResult.add_weakness,
    ScreeningResult.add_red_flag, ScreeningResult.add_insight,
    is_growing_trend, count_positive_changes, eps_values_sorted, last_over_prev,
    stable_sort, stable_insert, StockData.get_ticker, StockData.has_complete_data,
    analyzer_batch, weights_batch, DEFAULT_CRITERIA,
    stock_C, val_full]

/-! ## Claims -/

/-- Claim C1, counterexample. The claim "each category score and the
weighted total lie in [0,100] for every Criteria/Weights accepted at
construction" is false for the total: `ScoringWeights.__post_init__` only
checks that the sum of the weights is within [0.99, 1.01] — it accepts
weights summing to 1.01 (under which a perfect entity totals 101 > 100) and
even weights with a negative component (under which a total of 150 is
reached). -/
theorem claim_C1_counterexample :
    ScoringWeights.construct 0.26 0.35 0.20 0.20 = Except.ok weights_101
    ∧ 0 ≤ weights_101.valuation_weight ∧ 0 ≤ weights_101.profitability_weight
    ∧ 0 ≤ weights_101.risk_weight ∧ 0 ≤ weights_101.dividend_weight
    ∧ (analyzer_101.analyze stock_perfect).metrics.total_score = 101
    ∧ ¬ (analyzer_101.analyze stock_perfect).metrics.total_score ≤ 100
    ∧ ScoringWeights.construct 1.5 (-0.5) 0 0 = Except.ok weights_negative
    ∧ (analyzer_negative.analyze stock_valuation_only).metrics.total_score = 150 := by
  refine ⟨?_, by norm_num [weights_101], by norm_num [weights_101],
    by norm_num [weights_101], by norm_num [weights_101],
    total_analyzer_101_stock_perfect,
    by rw [total_analyzer_101_stock_perfect]; norm_num, ?_,
    total_analyzer_negative_stock_valuation_only⟩
  · unfold ScoringWeights.construct ScoringWeights.post_init
    norm_num [ScoringWeights.total, weights_101]
  · unfold ScoringWeights.construct ScoringWeights.post_init
    norm_num [ScoringWeights.total, weights_negative]

/-- Claim C1, amended: for every metrics input and criteria, each of the
four category scores lies in [0,100]; and for Weights accepted at
construction whose four components are in addition non-negative, the
weighted total score lies in [0, 101] (it is bounded by 100 times the
weight sum, which construction only bounds by 1.01). -/
theorem claim_C1_amended (a : FundamentalAnalyzer) (sd : StockData)
    (hv : 0 ≤ a.weights.valuation_weight) (hp : 0 ≤ a.weights.profitability_weight)
    (hr : 0 ≤ a.weights.risk_weight) (hd : 0 ≤ a.weights.dividend_weight)
    (hsum : a.weights.total ≤ 1.01) :
    (0 ≤ (a.analyze sd).metrics.valuation_score.score
      ∧ (a.analyze sd).metrics.valuation_score.score ≤ 100)
    ∧ (0 ≤ (a.analyze sd).metrics.profitability_score.score
      ∧ (a.analyze sd).metrics.profitability_score.score ≤ 100)
    ∧ (0 ≤ (a.analyze sd).metrics.risk_score.score
      ∧ (a.analyze sd).metrics.risk_score.score ≤ 100)
    ∧ (0 ≤ (a.analyze sd).metrics.dividend_score.score
      ∧ (a.analyze sd).metrics.dividend_score.score ≤ 100)
    ∧ 0 ≤ (a.analyze sd).metrics.total_score
    ∧ (a.analyze sd).metrics.total_score ≤ 101 := by
  obtain ⟨hv0, hv1⟩ := analyze_valuation_category_bounds a sd
  obtain ⟨hp0, hp1⟩ := analyze_profitability_category_bounds a sd
  obtain ⟨hr5, hr1⟩ := analyze_risk_category_bounds a sd
  obtain ⟨hd0, hd1⟩ := analyze_dividend_category_bounds a sd
  have hr0 : 0 ≤ (a.analyze sd).metrics.risk_score.score := by linarith
  have harg0 : 0 ≤ (a.analyze sd).metrics.valuation_score.score * a.weights.valuation_weight
      + (a.analyze sd).metrics.profitability_score.score * a.weights.profitability_weight
      + (a.analyze sd).metrics.risk_score.score * a.weights.risk_weight
      + (a.analyze sd).metrics.dividend_score.score * a.weights.dividend_weight := by
    have := mul_nonneg hv0 hv
    have := mul_nonneg hp0 hp
    have := mul_nonneg hr0 hr
    have := mul_nonneg hd0 hd
    linarith
  have harg1 : (a.analyze sd).metrics.valuation_score.score * a.weights.valuation_weight
      + (a.analyze sd).metrics.profitability_score.score * a.weights.profitability_weight
      + (a.analyze sd).metrics.risk_score.score * a.weights.risk_weight
      + (a.analyze sd).metrics.dividend_score.score * a.weights.dividend_weight
      ≤ (101 : ℚ) := by
    have h1 := mul_le_mul_of_nonneg_right hv1 hv
    have h2 := mul_le_mul_of_nonneg_right hp1 hp
    have h3 := mul_le_mul_of_nonneg_right hr1 hr
    have h4 := mul_le_mul_of_nonneg_right hd1 hd
    have hs : a.weights.valuation_weight + a.weights.profitability_weight
        + a.weights.risk_weight + a.weights.dividend_weight ≤ 1.01 := by
      simpa [ScoringWeights.total] using hsum
    nlinarith
  refine ⟨⟨hv0, hv1⟩, ⟨hp0, hp1⟩, ⟨hr0, hr1⟩, ⟨hd0, hd1⟩, ?_, ?_⟩
  · rw [analyze_total_score_eq]
    exact py_round2_nonneg _ harg0
  · rw [analyze_total_score_eq]
    have := py_round2_le _ 101 (by exact_mod_cast harg1)
    exact_mod_cast this

/-- Claim C1, witness: the amended bounds instantiated at the default
analyzer and a zero-data entity. -/
theorem claim_C1_witness :
    0 ≤ (analyzer_default.analyze (zero_data_stock info_X)).metrics.total_score
    ∧ (analyzer_default.analyze (zero_data_stock info_X)).metrics.total_score ≤ 101 := by
  have h := claim_C1_amended analyzer_default (zero_data_stock info_X)
    (by norm_num [analyzer_default, DEFAULT_WEIGHTS])
    (by norm_num [analyzer_default, DEFAULT_WEIGHTS])
    (by norm_num [analyzer_default, DEFAULT_WEIGHTS])
    (by norm_num [analyzer_default, DEFAULT_WEIGHTS])
    (by norm_num [analyzer_default, DEFAULT_WEIGHTS, ScoringWeights.total])
  exact ⟨h.2.2.2.2.1, h.2.2.2.2.2⟩

/-- Claim C2: constructing `ScoringWeights` errors exactly when the four
fractions do not sum to 1.0 within ±0.01 (that is, when the sum is outside
[0.99, 1.01]); an accepted value keeps exactly the given fractions (no
renormalization) and its sum stays within the tolerance; sums 0.80 and 1.20
raise while 1.00 and 1.005 succeed. -/
theorem claim_C2 :
    (∀ v p r d : ℚ, (∃ e, ScoringWeights.construct v p r d = Except.error e)
        ↔ ¬ (0.99 ≤ v + p + r + d ∧ v + p + r + d ≤ 1.01))
    ∧ (∀ v p r d : ℚ, ∀ w : ScoringWeights,
        ScoringWeights.construct v p r d = Except.ok w
        → w.valuation_weight = v ∧ w.profitability_weight = p ∧ w.risk_weight = r
          ∧ w.dividend_weight = d ∧ 0.99 ≤ w.total ∧ w.total ≤ 1.01)
    ∧ ScoringWeights.construct 0.20 0.20 0.20 0.20 = Except.error "Weights must sum to 1.0"
    ∧ ScoringWeights.construct 0.30 0.30 0.30 0.30 = Except.error "Weights must sum to 1.0"
    ∧ ScoringWeights.construct 0.25 0.35 0.20 0.20 = Except.ok DEFAULT_WEIGHTS
    ∧ ScoringWeights.construct 0.25 0.355 0.20 0.20 = Except.ok ⟨0.25, 0.355, 0.20, 0.20⟩ := by
  have hshape : ∀ v p r d : ℚ, ScoringWeights.construct v p r d
      = if ¬ (0.99 ≤ v + p + r + d ∧ v + p + r + d ≤ 1.01)
        then Except.error "Weights must sum to 1.0"
        else Except.ok ⟨v, p, r, d⟩ := by
    intro v p r d
    unfold ScoringWeights.construct ScoringWeights.post_init
    simp only [ScoringWeights.total]
  refine ⟨?_, ?_, ?_, ?_, ?_, ?_⟩
  · intro v p r d
    rw [hshape]
    split_ifs with h
    · constructor
      · rintro ⟨e, he⟩
        exact absurd he (by simp)
      · intro hc
        exact absurd h hc
    · exact ⟨fun _ => h, fun _ => ⟨_, rfl⟩⟩
  · intro v p r d w hw
    rw [hshape] at hw
    split_ifs at hw with h
    obtain rfl : (⟨v, p, r, d⟩ : ScoringWeights) = w := Except.ok.inj hw
    exact ⟨rfl, rfl, rfl, rfl, by simpa [ScoringWeights.total] using h.1,
      by simpa [ScoringWeights.total] using h.2⟩
  · rw [hshape]; norm_num
  · rw [hshape]; norm_num
  · rw [hshape]
    norm_num [DEFAULT_WEIGHTS]
  · rw [hshape]; norm_num

/-- Claim C2, witness: the acceptance branch at the default fractions. -/
theorem claim_C2_witness :
    DEFAULT_WEIGHTS.valuation_weight = 0.25 ∧ DEFAULT_WEIGHTS.profitability_weight = 0.35
    ∧ DEFAULT_WEIGHTS.risk_weight = 0.20 ∧ DEFAULT_WEIGHTS.dividend_weight = 0.20
    ∧ 0.99 ≤ DEFAULT_WEIGHTS.total ∧ DEFAULT_WEIGHTS.total ≤ 1.01 := by
  have h := claim_C2
  exact h.2.1 0.25 0.35 0.20 0.20 DEFAULT_WEIGHTS h.2.2.2.2.1

/-- The rating breakpoints exactly as the spec words them, on the total
score's domain [0, 100] (claim C3). -/
def rating_spec (score : ℚ) : Rating :=
  if 80 ≤ score ∧ score ≤ 100 then Rating.VERY_STRONG
  else if 60 ≤ score ∧ score < 80 then Rating.STRONG
  else if 40 ≤ score ∧ score < 60 then Rating.FAIR
  else if 20 ≤ score ∧ score < 40 then Rating.WEAK
  else Rating.VERY_WEAK

/-- Claim C3: on [0,100] the code's rating derivation agrees with the
spec's breakpoints, never yields INSUFFICIENT_DATA, maps 79.99 to Strong,
80 to VeryStrong, 39.99 to Weak and 19.99 to VeryWeak, and
`calculate_rating_from_score` is that pure function of the total score. -/
theorem claim_C3 (score : ℚ) (h0 : 0 ≤ score) (h1 : score ≤ 100) :
    rating_from_score score = rating_spec score
    ∧ rating_from_score score ≠ Rating.INSUFFICIENT_DATA
    ∧ rating_from_score 79.99 = Rating.STRONG
    ∧ rating_from_score 80 = Rating.VERY_STRONG
    ∧ rating_from_score 39.99 = Rating.WEAK
    ∧ rating_from_score 19.99 = Rating.VERY_WEAK
    ∧ (∀ r : ScreeningResult,
        r.calculate_rating_from_score = rating_from_score r.metrics.total_score) := by
  refine ⟨?_, ?_, by norm_num [rating_from_score], by norm_num [rating_from_score],
    by norm_num [rating_from_score], by norm_num [rating_from_score],
    fun r => rfl⟩
  · by_cases h80 : 80 ≤ score
    · simp [rating_from_score, rating_spec, h80, h1]
    · by_cases h60 : 60 ≤ score
      · simp [rating_from_score, rating_spec, h80, h60, not_le.mp h80]
      · by_cases h40 : 40 ≤ score
        · simp [rating_from_score, rating_spec, h80, h60, h40, not_le.mp h60]
        · by_cases h20 : 20 ≤ score
          · simp [rating_from_score, rating_spec, h80, h60, h40, h20, not_le.mp h40]
          · simp [rating_from_score, rating_spec, h80, h60, h40, h20]
  · unfold rating_from_score
    split_ifs <;> simp

/-- Claim C3, witness: the breakpoints evaluated at 85. -/
theorem claim_C3_witness :
    rating_from_score 85 = rating_spec 85
    ∧ rating_from_score 85 ≠ Rating.INSUFFICIENT_DATA := by
  have h := claim_C3 85 (by norm_num) (by norm_num)
  exact ⟨h.1, h.2.1⟩

/-- Claim C4: scoring a metrics record with every optional field absent
never raises (`analyze` is total by construction) and yields a valuation
score of 0, a dividend score of 0 with a "no dividend" red flag when the
dividend-required policy is set and 20 with a weakness otherwise, and a
non-empty weaknesses list. -/
theorem claim_C4 (a : FundamentalAnalyzer) (info : CompanyInfo) :
    (a.analyze (zero_data_stock info)).metrics.valuation_score.score = 0
    ∧ (a.analyze (zero_data_stock info)).metrics.dividend_score.score
        = (if a.criteria.dividend.require_dividend then 0 else 20)
    ∧ Msg.tidak_membayar_dividen ∈
        (if a.criteria.dividend.require_dividend
         then (a.analyze (zero_data_stock info)).red_flags
         else (a.analyze (zero_data_stock info)).weaknesses)
    ∧ (a.analyze (zero_data_stock info)).weaknesses ≠ [] := by
  cases hreq : a.criteria.dividend.require_dividend <;>
    simp [FundamentalAnalyzer.analyze, FundamentalAnalyzer.analyze_valuation,
      FundamentalAnalyzer.analyze_profitability, FundamentalAnalyzer.analyze_risk,
      FundamentalAnalyzer.analyze_dividend, FundamentalAnalyzer.calculate_total_score,
      valuation_pe_block, valuation_pbv_block, valuation_mcap_block,
      profitability_eps_block, profitability_gpm_block, profitability_roe_block,
      profitability_ocf_block, profitability_fcf_block,
      risk_dte_block, risk_beta_block, dividend_block,
      ScreeningResult.add_strength, ScreeningResult.add_weakness,
      ScreeningResult.add_red_flag, ScreeningResult.add_insight,
      is_growing_trend, count_positive_changes, eps_values_sorted, last_over_prev,
      stable_sort, stable_insert, StockData.has_complete_data,
      zero_data_stock, hreq]

/-- Claim C5: the batch entry point returns exactly one result per input
(a permutation of the per-entity results), ordered by total score
descending, with ties kept in input order (for every score value the
results carrying it appear exactly as in the unsorted per-input list), and
on the three concrete entities scoring 72.0, 45.5 and 91.2 it returns them
ordered 91.2, 72.0, 45.5. -/
theorem claim_C5 (a : FundamentalAnalyzer) (stocks : List StockData) :
    (a.batch_analyze stocks).length = stocks.length
    ∧ (a.batch_analyze stocks).Perm (stocks.map a.analyze)
    ∧ (a.batch_analyze stocks).Pairwise
        (fun x y => y.metrics.total_score ≤ x.metrics.total_score)
    ∧ (∀ s : ℚ,
        (a.batch_analyze stocks).filter (fun r => decide (r.metrics.total_score = s))
          = (stocks.map a.analyze).filter (fun r => decide (r.metrics.total_score = s)))
    ∧ (analyzer_batch.batch_analyze [stock_B, stock_C, stock_A]).map
        (fun r => r.metrics.total_score) = [91.2, 72, 45.5]
    ∧ (analyzer_batch.batch_analyze [stock_B, stock_C, stock_A]).map
        (fun r => r.ticker) = ["A", "B", "C"] := by
  refine ⟨?_, ?_, ?_, ?_, ?_, ?_⟩
  · rw [FundamentalAnalyzer.batch_analyze, length_stable_sort, List.length_map]
  · exact stable_sort_perm _ _
  · simp only [FundamentalAnalyzer.batch_analyze]
    refine pairwise_stable_sort _ _ ?_ ?_ ?_ _
    · intro x y hxy
      simp only [decide_eq_true_eq] at hxy
      linarith
    · intro x y hxy
      simp only [decide_eq_true_eq] at hxy
      linarith [le_of_not_lt hxy]
    · intro x y z hxy hyz
      linarith
  · intro s
    simp only [FundamentalAnalyzer.batch_analyze]
    exact filter_stable_sort_key (fun r : ScreeningResult => r.metrics.total_score) s _
  · norm_num [FundamentalAnalyzer.batch_analyze, stable_sort, stable_insert,
      total_batch_stock_A, total_batch_stock_B, total_batch_stock_C]
  · norm_num [FundamentalAnalyzer.batch_analyze, stable_sort, stable_insert,
      total_batch_stock_A, total_batch_stock_B, total_batch_stock_C,
      ticker_batch_stock_A, ticker_batch_stock_B, ticker_batch_stock_C]

/-- Claim C6: the growth-trend test is true exactly when the sequence has
at least 2 elements and the number of adjacent increases reaches the
configured minimum; sequences shorter than 2 are never growing;
[1,2,1,3,2,4] is growing at minimum 3 and [5,4,3,2,1] is not. -/
theorem claim_C6 :
    (∀ (values : List ℚ) (m : ℕ),
      is_growing_trend values m = true
        ↔ 2 ≤ values.length ∧ m ≤ adjacent_increases_spec values)
    ∧ is_growing_trend [1, 2, 1, 3, 2, 4] 3 = true
    ∧ is_growing_trend [5, 4, 3, 2, 1] 3 = false := by
  refine ⟨?_, by norm_num [is_growing_trend, count_positive_changes],
    by norm_num [is_growing_trend, count_positive_changes]⟩
  intro values m
  rw [← count_positive_changes_eq_spec]
  unfold is_growing_trend
  split_ifs with h
  · simp only [Bool.false_eq_true, false_iff]
    omega
  · simp only [decide_eq_true_eq]
    omega

/-- Claim C7, counterexample. The claim ties the red flag to the
data-layer completeness score, but the code's gate is
`has_complete_data()` (presence of the five required metrics):
`stock_incomplete_quality` has a completeness score below 100% (several
additional fields are absent), yet `analyze` records no incomplete-data
red flag because all five required metrics are present. -/
theorem claim_C7_counterexample :
    stock_incomplete_quality.data_quality_score
      = some (calculate_data_quality val_gap prof_gap cash_gap lev_gap div_gap)
    ∧ calculate_data_quality val_gap prof_gap cash_gap lev_gap div_gap < 100
    ∧ (analyzer_default.analyze stock_incomplete_quality).data_completeness < 100
    ∧ Msg.data_tidak_lengkap ∉ (analyzer_default.analyze stock_incomplete_quality).red_flags := by
  have hq : calculate_data_quality val_gap prof_gap cash_gap lev_gap div_gap
      = 1700 / 21 := by
    norm_num [calculate_data_quality, val_gap, prof_gap, cash_gap, lev_gap, div_gap]
  have hcd : (analyzer_default.analyze stock_incomplete_quality).data_completeness
      = 1700 / 21 := by
    norm_num [FundamentalAnalyzer.analyze, FundamentalAnalyzer.analyze_valuation,
      FundamentalAnalyzer.analyze_profitability, FundamentalAnalyzer.analyze_risk,
      FundamentalAnalyzer.analyze_dividend,
      valuation_pe_block, valuation_pbv_block, valuation_mcap_block,
      profitability_eps_block, profitability_gpm_block, profitability_roe_block,
      profitability_ocf_block, profitability_fcf_block,
      risk_dte_block, risk_beta_block, dividend_block,
      ScreeningResult.add_strength, ScreeningResult.add_weakness,
      ScreeningResult.add_red_flag, ScreeningResult.add_insight,
      is_growing_trend, count_positive_changes, eps_values_sorted, last_over_prev,
      stable_sort, stable_insert, StockData.has_complete_data, StockData.get_ticker,
      analyzer_default, DEFAULT_CRITERIA, calculate_data_quality,
      stock_incomplete_quality, val_gap, prof_gap, cash_gap, lev_gap, div_gap]
  refine ⟨rfl, by rw [hq]; norm_num, by rw [hcd]; norm_num, ?_⟩
  simp only [mem_rf_analyze]
  simp [stock_incomplete_quality, StockData.has_complete_data, val_gap, prof_gap, lev_gap]

/-- Claim C7, amended: the incomplete-data red flag is recorded exactly
when `has_complete_data()` is false, i.e. when one of the five required
metrics (P/E, P/B, ROE, gross margin, debt-to-equity) is absent — not when
the externally supplied completeness score is below 100% — and scoring
always proceeds to a full result whose rating is derived from its total
score. -/
theorem claim_C7_amended (a : FundamentalAnalyzer) (sd : StockData) :
    (Msg.data_tidak_lengkap ∈ (a.analyze sd).red_flags
      ↔ sd.has_complete_data = false)
    ∧ (a.analyze sd).rating = rating_from_score (a.analyze sd).metrics.total_score :=
  ⟨mem_rf_analyze a sd, analyze_rating_eq a sd⟩

/-- Modelled from the spec (claim C8): the beta rule's awards as the spec
words them — +30 when beta ≤ 1.0; else +20 when beta_max is set and
beta ≤ beta_max; else +5; and a flat +15 when beta is entirely absent. -/
def beta_rule_spec (beta_max : Option ℚ) : Option ℚ → ℚ
  | some beta =>
    if beta ≤ 1 then 30
    else
      match beta_max with
      | some m => if beta ≤ m then 20 else 5
      | none => 5
  | none => 15

theorem risk_beta_block_score_spec (crit : RiskCriteria) (beta? : Option ℚ)
    (r : ScreeningResult) :
    (risk_beta_block crit beta? r).1 = beta_rule_spec crit.beta_max beta? := by
  rcases beta? with _ | beta
  · simp [risk_beta_block, beta_rule_spec]
  · rcases hbm : crit.beta_max with _ | m <;>
      simp only [risk_beta_block, beta_rule_spec, hbm, decide_eq_true_eq,
        Bool.false_eq_true, if_false] <;>
      split_ifs <;> norm_num

/-- Claim C8: the risk score decomposes as the debt-to-equity contribution
plus exactly the spec's beta rule (+30 / +20 / +5, and a flat +15 with a
neutral insight when beta is absent). -/
theorem claim_C8 (a : FundamentalAnalyzer) (sd : StockData) (r : ScreeningResult) :
    (a.analyze_risk sd r).1.score
      = (risk_dte_block a.criteria.risk sd.leverage.debt_to_equity r).1
        + beta_rule_spec a.criteria.risk.beta_max sd.leverage.beta
    ∧ (sd.leverage.beta = none →
        (a.analyze_risk sd r).2.insights
          = (risk_dte_block a.criteria.risk sd.leverage.debt_to_equity r).2.2.insights
            ++ [{ category := "Risk", severity := "neutral",
                  title := "Beta data unavailable",
                  description := Msg.beta_tidak_tersedia_descr,
                  impact := some "Low" }]) := by
  constructor
  · simp only [FundamentalAnalyzer.analyze_risk]
    rw [risk_beta_block_score_spec]
  · intro hbeta
    simp only [FundamentalAnalyzer.analyze_risk, hbeta, risk_beta_block,
      ScreeningResult.add_insight]

/-- Claim C8, witness: the absent-beta branch at the default analyzer and
a zero-data entity. -/
theorem claim_C8_witness :
    (analyzer_default.analyze_risk (zero_data_stock info_X) base_result).1.score
      = (risk_dte_block analyzer_default.criteria.risk
          (zero_data_stock info_X).leverage.debt_to_equity base_result).1
        + beta_rule_spec analyzer_default.criteria.risk.beta_max
            (zero_data_stock info_X).leverage.beta
    ∧ (analyzer_default.analyze_risk (zero_data_stock info_X) base_result).2.insights
      = (risk_dte_block analyzer_default.criteria.risk
          (zero_data_stock info_X).leverage.debt_to_equity base_result).2.2.insights
        ++ [{ category := "Risk", severity := "neutral",
              title := "Beta data unavailable",
              description := Msg.beta_tidak_tersedia_descr,
              impact := some "Low" }] := by
  have h := claim_C8 analyzer_default (zero_data_stock info_X) base_result
  exact ⟨h.1, h.2 rfl⟩

theorem analyze_risk_score_of_beta_none (a : FundamentalAnalyzer) (sd : StockData)
    (r : ScreeningResult) (hbeta : sd.leverage.beta = none) :
    15 ≤ (a.analyze_risk sd r).1.score := by
  have h := risk_dte_block_score_bounds a.criteria.risk sd.leverage.debt_to_equity r
  simp only [FundamentalAnalyzer.analyze_risk, hbeta]
  generalize hB : risk_dte_block a.criteria.risk sd.leverage.debt_to_equity r = B1 at h ⊢
  simp only [risk_beta_block]
  have h15 : ((15 : ℚ), ([] : List (String × DVal)),
      B1.2.2.add_insight "Risk" "neutral" "Beta data unavailable"
        Msg.beta_tidak_tersedia_descr (some "Low")).1 = 15 := rfl
  linarith [h.1]

/-- Claim C9: the risk category score is at least 5 for every input, at
least 15 whenever beta is absent, and with the default weights a zero-data
entity's total score is 3.0, not 0. -/
theorem claim_C9 (a : FundamentalAnalyzer) (sd : StockData) :
    5 ≤ (a.analyze sd).metrics.risk_score.score
    ∧ (sd.leverage.beta = none → 15 ≤ (a.analyze sd).metrics.risk_score.score)
    ∧ (analyzer_default.analyze (zero_data_stock info_X)).metrics.total_score = 3 := by
  refine ⟨(analyze_risk_category_bounds a sd).1, ?_, total_zero_data_default⟩
  intro hbeta
  simp only [FundamentalAnalyzer.analyze]
  exact analyze_risk_score_of_beta_none a sd _ hbeta

/-- Claim C9, witness: the absent-beta lower bound at the default analyzer
and a zero-data entity. -/
theorem claim_C9_witness :
    15 ≤ (analyzer_default.analyze (zero_data_stock info_X)).metrics.risk_score.score := by
  have h := claim_C9 analyzer_default (zero_data_stock info_X)
  exact h.2.1 rfl

theorem eps_values_sorted_length (h : List (ℤ × ℚ)) :
    (eps_values_sorted h).length = h.length := by
  simp [eps_values_sorted, length_stable_sort]

/-- Claim C10: with the fixed minimum of 3 increases, an EPS history of
fewer than 4 years can never be classified as growing, so the EPS-trend
rule awards at most 15 points (never the full 30) for such inputs. -/
theorem claim_C10 (eps_history : List (ℤ × ℚ)) (r : ScreeningResult)
    (values : List ℚ) (hlen : eps_history.length < 4) (hv : values.length < 4) :
    (profitability_eps_block eps_history r).1 ≤ 15
    ∧ (profitability_eps_block eps_history r).1 ≠ 30
    ∧ is_growing_trend values 3 = false := by
  have hg : is_growing_trend (eps_values_sorted eps_history) 3 = false :=
    is_growing_trend_false_of_short _ 3 (by rw [eps_values_sorted_length]; omega)
  refine ⟨?_, ?_, is_growing_trend_false_of_short values 3 (by omega)⟩ <;>
  · simp only [profitability_eps_block, hg, Bool.false_eq_true, if_false]
    split_ifs <;> norm_num

/-- Claim C10, witness: a two-year history earns at most 15 points and a
three-element sequence is not growing. -/
theorem claim_C10_witness :
    (profitability_eps_block [(2022, 1), (2023, 2)] base_result).1 ≤ 15
    ∧ (profitability_eps_block [(2022, 1), (2023, 2)] base_result).1 ≠ 30
    ∧ is_growing_trend [1, 2, 3] 3 = false :=
  claim_C10 [(2022, 1), (2023, 2)] base_result [1, 2, 3] (by norm_num) (by norm_num)
